import Mathlib

/-!
# DS3231M real-time-clock driver: embedding and verification

Shallow embedding of `DS3231M_library/src/lib/DS3231M.c`.

Machine integers are natural numbers; every place where the C code converts to
a narrower or unsigned type carries an explicit `% 2 ^ w`.  Expressions that
the C code evaluates in `int` are evaluated in `Int` and converted afterwards.
-/

namespace DS3231M

/-! ## Data model -/

/-- The device record `ds3231m_t`.  Its declaration (`DS3231M.h`) is not part
of the sources; the fields are the ones the driver and its tests access.  The
tests compare `year` as a 16-bit value and all other fields as 8-bit values,
and `convert_dateTime_to_unixms` loads `year` into a `uint16_t` and `month`,
`date` into `uint8_t` locals. -/
structure ds3231m_t where
  address : Nat
  second : Nat
  minute : Nat
  hour : Nat
  day_of_week : Nat
  date : Nat
  month : Nat
  year : Nat
  deriving Repr, DecidableEq

/-- Conversion of an `int` value to `uint8_t`. -/
def toU8 (i : Int) : Nat := (i % 256).toNat

/-- Conversion of an `int` value to `uint16_t`. -/
def toU16 (i : Int) : Nat := (i % 65536).toNat

/-- Conversion of an `int` value to `uint64_t`. -/
def toU64 (i : Int) : Nat := (i % 18446744073709551616).toNat

/-! ## Register addresses -/

def DS3231_REGISTER_CONTROL : Nat := 0x0E
def DS3231_REGISTER_STATUS : Nat := 0x0F
def DS3231_REGISTER_SECONDS : Nat := 0x00
def DS3231_REGISTER_MINUTES : Nat := 0x01
def DS3231_REGISTER_HOUR : Nat := 0x02
def DS3231_REGISTER_DAY : Nat := 0x03
def DS3231_REGISTER_DATE : Nat := 0x04
def DS3231_REGISTER_MONTH : Nat := 0x05
def DS3231_REGISTER_YEAR : Nat := 0x06
def DS3231_REGISTER_DATETIME_LENGTH : Nat := 7

/-! ## BCD codec -/

/-- Source: `static uint8_t bcd2bin (uint8_t val) { return val - 6 * (val >> 4); }` -/
def bcd2bin (val : Nat) : Nat := toU8 ((val : Int) - 6 * ((val >>> 4 : Nat) : Int))

/-- Source: `static uint8_t bin2bcd (uint8_t val) { return val + 6 * (val / 10); }` -/
def bin2bcd (val : Nat) : Nat := toU8 ((val : Int) + 6 * ((val / 10 : Nat) : Int))

/-! ## The two-wire bus -/

/-- The part of `twihs_packet_t` the driver fills in.  `buffer` holds the
contents of the memory the packet's buffer pointer designates. -/
structure twihs_packet_t where
  chip : Nat
  addr0 : Nat
  addr_length : Nat
  buffer : List Nat
  length : Nat
  deriving Repr, DecidableEq

/-- One call into the bus driver, with the packet as it was passed. -/
inductive BusCall where
  | master_write (packet : twihs_packet_t)
  | master_read (packet : twihs_packet_t)
  deriving Repr, DecidableEq

/-- The external TWIHS master driver over a bus state `σ`.
`master_write` returns the 32-bit status; `master_read` returns the 32-bit
status together with the contents of the packet's buffer after the call. -/
structure Twihs (σ : Type) where
  master_write : σ → twihs_packet_t → Nat × σ
  master_read : σ → twihs_packet_t → (Nat × List Nat) × σ

/-! ## Setting the time -/

/-- The seven-byte block `buffer` that `DS3231M_setTime` assembles. -/
def setTime_buffer (ds : ds3231m_t) : List Nat :=
  [ bin2bcd ds.second,
    bin2bcd ds.minute,
    bin2bcd ds.hour,
    bin2bcd ds.day_of_week,
    bin2bcd ds.date,
    bin2bcd ds.month,
    bin2bcd (toU8 ((ds.year : Int) - 2000)) ]

/-- The packet of the block write in `DS3231M_setTime`: chip address of the
record, register `DS3231_REGISTER_SECONDS`, one address byte, the assembled
block and its length. -/
def setTime_packet (ds : ds3231m_t) : twihs_packet_t :=
  { chip := ds.address, addr0 := DS3231_REGISTER_SECONDS, addr_length := 1,
    buffer := setTime_buffer ds, length := DS3231_REGISTER_DATETIME_LENGTH }

/-- Outcome of `DS3231M_setTime`: the returned value, the bus state afterwards
and the bus calls made, in order. -/
structure SetTimeResult (σ : Type) where
  result : Nat
  bus : σ
  calls : List BusCall

set_option linter.unusedVariables false in
/-- Source: `uint32_t DS3231M_setTime(ds3231m_t *ds3231m)`.  The local `result` is a
`uint8_t`: each status is truncated to eight bits when it is stored, and each
of the three assignments overwrites the previous one. -/
def DS3231M_setTime {σ : Type} (twihs : Twihs σ) (s0 : σ) (ds : ds3231m_t) :
    SetTimeResult σ :=
  let status_reg : Nat := 0
  -- Set the new date/time
  let packet : twihs_packet_t := setTime_packet ds
  let w1 := twihs.master_write s0 packet
  let result : Nat := w1.1 % 256
  let s1 := w1.2
  -- Clear OSF bit in status register
  let packet2 : twihs_packet_t :=
    { packet with addr0 := DS3231_REGISTER_STATUS, buffer := [status_reg], length := 1 }
  let r := twihs.master_read s1 packet2
  let result : Nat := r.1.1 % 256
  let status_reg : Nat := r.1.2.headD status_reg
  let s2 := r.2
  let status_reg : Nat := (status_reg &&& 0xFFFFFF7F) % 256
  let packet3 : twihs_packet_t :=
    { packet2 with addr0 := DS3231_REGISTER_STATUS, buffer := [status_reg], length := 1 }
  let w2 := twihs.master_write s2 packet3
  let result : Nat := w2.1 % 256
  { result := result, bus := w2.2,
    calls := [BusCall.master_write packet, BusCall.master_read packet2,
              BusCall.master_write packet3] }

/-! ## Reading the time -/

/-- Outcome of `DS3231M_getTime`: the returned value, the record, the static
receive buffer and the bus state afterwards. -/
structure GetTimeResult (σ : Type) where
  result : Nat
  ds : ds3231m_t
  buffer : List Nat
  bus : σ

/-- The packet `packet_rx` of the block read in `DS3231M_getTime`; `buffer` is
the receive buffer as it stands before the call. -/
def getTime_packet (ds : ds3231m_t) (buffer : List Nat) : twihs_packet_t :=
  { chip := ds.address, addr0 := DS3231_REGISTER_SECONDS, addr_length := 1,
    buffer := buffer, length := DS3231_REGISTER_DATETIME_LENGTH }

/-- Source: `uint32_t DS3231M_getTime(ds3231m_t *ds3231m)`.  `TWIHS_SUCCESS`
comes from the vendor header `twihs.h`, which is not part of the sources, and
is a parameter.  `buffer` is the function's `static` seven-byte receive buffer;
after the call it holds what the read left in it (in test builds, what the
`memcpy` from the packet's buffer left in it).  The record is written only
under `result == TWIHS_SUCCESS`. -/
def DS3231M_getTime {σ : Type} (TWIHS_SUCCESS : Nat) (twihs : Twihs σ) (s0 : σ)
    (buffer : List Nat) (ds : ds3231m_t) : GetTimeResult σ :=
  let packet_rx : twihs_packet_t := getTime_packet ds buffer
  let r := twihs.master_read s0 packet_rx
  let result : Nat := r.1.1
  let buffer : List Nat := r.1.2
  if result = TWIHS_SUCCESS then
    let ds := { ds with second := bcd2bin (buffer.getD DS3231_REGISTER_SECONDS 0) }
    let ds := { ds with minute := bcd2bin (buffer.getD DS3231_REGISTER_MINUTES 0) }
    let ds := { ds with hour := bcd2bin (buffer.getD DS3231_REGISTER_HOUR 0) }
    let ds := { ds with day_of_week := bcd2bin (buffer.getD DS3231_REGISTER_DAY 0) }
    let ds := { ds with date := bcd2bin (buffer.getD DS3231_REGISTER_DATE 0) }
    let ds := { ds with month := bcd2bin (buffer.getD DS3231_REGISTER_MONTH 0) }
    let ds := { ds with
      year := toU16 (2000 + (bcd2bin (buffer.getD DS3231_REGISTER_YEAR 0) : Int)) }
    { result := result, ds := ds, buffer := buffer, bus := r.2 }
  else
    { result := result, ds := ds, buffer := buffer, bus := r.2 }

/-! ## Calendar conversion -/

/-- Source: `uint64_t convert_dateTime_to_unixms(ds3231m_t *ds3231m)`.  The
locals are `uint16_t y`, `uint8_t m`, `uint8_t d` and `uint64_t unix_timestamp`;
each right-hand side is an `int` expression converted to `uint64_t`. -/
def convert_dateTime_to_unixms (ds : ds3231m_t) : Nat :=
  let y : Nat := ds.year
  let m : Nat := ds.month
  let d : Nat := ds.date
  -- January and February are counted as months 13 and 14 of the previous year
  let m' : Nat := if m ≤ 2 then toU8 ((m : Int) + 12) else m
  let y' : Nat := if m ≤ 2 then toU16 ((y : Int) - 1) else y
  -- Convert years to days
  let unix_timestamp : Nat :=
    toU64 ((365 * (y' : Int)) + ((y' / 4 : Nat) : Int) - ((y' / 100 : Nat) : Int)
      + ((y' / 400 : Nat) : Int))
  -- Convert months to days
  let unix_timestamp : Nat :=
    (unix_timestamp +
      toU64 ((30 * (m' : Int)) + ((3 * (m' + 1) / 5 : Nat) : Int) + (d : Int)))
      % 2 ^ 64
  -- Unix time starts on January 1st, 1970
  let unix_timestamp : Nat := (unix_timestamp + (2 ^ 64 - 719561)) % 2 ^ 64
  -- Convert days to seconds
  let unix_timestamp : Nat := (unix_timestamp * 86400) % 2 ^ 64
  -- Add hours, minutes and seconds
  let unix_timestamp : Nat :=
    (unix_timestamp +
      toU64 ((3600 * (ds.hour : Int)) + (60 * (ds.minute : Int)) + (ds.second : Int)))
      % 2 ^ 64
  -- Convert to ms
  let unix_timestamp : Nat := (unix_timestamp * 1000) % 2 ^ 64
  unix_timestamp

/-- Source: `void convert_unixms_to_dateTime(uint64_t unix_timestamp_ms, ds3231m_t *ds3231m)`.
The locals `a` .. `f` are `uint32_t`; `unix_timestamp` is `uint64_t`. -/
def convert_unixms_to_dateTime (unix_timestamp_ms : Nat) (ds : ds3231m_t) : ds3231m_t :=
  -- Negative Unix time values are not supported
  let unix_timestamp_ms : Nat := if unix_timestamp_ms < 1 then 0 else unix_timestamp_ms
  -- Retrieve hours, minutes and seconds
  let unix_timestamp : Nat := unix_timestamp_ms / 1000
  let ds := { ds with second := (unix_timestamp % 60) % 256 }
  let unix_timestamp : Nat := unix_timestamp / 60
  let ds := { ds with minute := (unix_timestamp % 60) % 256 }
  let unix_timestamp : Nat := unix_timestamp / 60
  let ds := { ds with hour := (unix_timestamp % 24) % 256 }
  let unix_timestamp : Nat := unix_timestamp / 24
  -- Convert Unix time to date
  let a : Nat := (((4 * unix_timestamp + 102032) % 2 ^ 64) / 146097 + 15) % 2 ^ 64 % 2 ^ 32
  let b : Nat := (unix_timestamp + 2442113 + a + (2 ^ 64 - a / 4)) % 2 ^ 64 % 2 ^ 32
  let c : Nat := ((20 * b + (2 ^ 32 - 2442)) % 2 ^ 32) / 7305
  let d : Nat := (b + (2 ^ 32 - (365 * c) % 2 ^ 32) + (2 ^ 32 - c / 4)) % 2 ^ 32
  let e : Nat := ((d * 1000) % 2 ^ 32) / 30601
  let f : Nat :=
    (d + (2 ^ 32 - (e * 30) % 2 ^ 32) + (2 ^ 32 - ((e * 601) % 2 ^ 32) / 1000)) % 2 ^ 32
  -- January and February are counted as months 13 and 14 of the previous year
  let c' : Nat := if e ≤ 13 then (c + (2 ^ 32 - 4716)) % 2 ^ 32 else (c + (2 ^ 32 - 4715)) % 2 ^ 32
  let e' : Nat := if e ≤ 13 then (e + (2 ^ 32 - 1)) % 2 ^ 32 else (e + (2 ^ 32 - 13)) % 2 ^ 32
  -- Retrieve year, month and day
  let ds := { ds with year := c' % 65536 }
  let ds := { ds with month := e' % 256 }
  let ds := { ds with date := f % 256 }
  ds

/-! ## A scripted bus for concrete runs -/

/-- A bus double in the manner of the unit tests: the state is the list of
statuses still to be returned, one per call (success `0` once the list is
exhausted), and a read delivers the given bytes. -/
def scriptedBus (delivered : List Nat) : Twihs (List Nat) where
  master_write := fun s _ => (s.headD 0, s.tail)
  master_read := fun s _ => ((s.headD 0, delivered), s.tail)

/-- A bus that forwards every call to `twihs` and keeps a log in its state: each
call that is made appends itself, with the packet it received, to the log.  The
log holds exactly the calls that reached the bus, in the order they were made. -/
def recordingBus {σ : Type} (twihs : Twihs σ) : Twihs (σ × List BusCall) where
  master_write := fun s packet =>
    ((twihs.master_write s.1 packet).1,
      ((twihs.master_write s.1 packet).2, s.2 ++ [BusCall.master_write packet]))
  master_read := fun s packet =>
    ((twihs.master_read s.1 packet).1,
      ((twihs.master_read s.1 packet).2, s.2 ++ [BusCall.master_read packet]))

/-! ## Calendar validity -/

/-- Gregorian leap-year rule. -/
def isLeapYear (y : Nat) : Bool :=
  y % 4 == 0 && (y % 100 != 0 || y % 400 == 0)

/-- Number of days of month `m` in year `y`. -/
def daysInMonth (y m : Nat) : Nat :=
  if m = 2 then (if isLeapYear y then 29 else 28)
  else if m = 4 ∨ m = 6 ∨ m = 9 ∨ m = 11 then 30
  else 31

/-- A valid Gregorian date-time of the years 2000 to 2099. -/
def ValidDateTime (ds : ds3231m_t) : Prop :=
  2000 ≤ ds.year ∧ ds.year ≤ 2099 ∧ 1 ≤ ds.month ∧ ds.month ≤ 12 ∧
  1 ≤ ds.date ∧ ds.date ≤ daysInMonth ds.year ds.month ∧
  ds.hour ≤ 23 ∧ ds.minute ≤ 59 ∧ ds.second ≤ 59

instance (ds : ds3231m_t) : Decidable (ValidDateTime ds) := by
  unfold ValidDateTime; infer_instance

/-- The six calendar fields of two records agree. -/
def SameDateTime (a b : ds3231m_t) : Prop :=
  a.second = b.second ∧ a.minute = b.minute ∧ a.hour = b.hour ∧
  a.date = b.date ∧ a.month = b.month ∧ a.year = b.year

instance (a b : ds3231m_t) : Decidable (SameDateTime a b) := by
  unfold SameDateTime; infer_instance

/-- The field ranges of the chip's date-time registers. -/
def RegisterRange (ds : ds3231m_t) : Prop :=
  ds.second ≤ 59 ∧ ds.minute ≤ 59 ∧ ds.hour ≤ 23 ∧
  1 ≤ ds.day_of_week ∧ ds.day_of_week ≤ 7 ∧ 1 ≤ ds.date ∧ ds.date ≤ 31 ∧
  1 ≤ ds.month ∧ ds.month ≤ 12 ∧ 2000 ≤ ds.year ∧ ds.year ≤ 2099

instance (ds : ds3231m_t) : Decidable (RegisterRange ds) := by
  unfold RegisterRange; infer_instance

/-- The record of the unit tests: 2019-02-12 05:18:39, day of week 1. -/
def sampleTime : ds3231m_t :=
  { address := 0x68, second := 39, minute := 18, hour := 5, day_of_week := 1,
    date := 12, month := 2, year := 2019 }

/-- The register block of the unit tests, the wire form of `sampleTime`. -/
def sampleBlock : List Nat := [0x39, 0x18, 0x05, 0x01, 0x12, 0x02, 0x19]

/-- The last second before the origin: 1969-12-31 23:59:59 (a Wednesday). -/
def lastBeforeEpoch : ds3231m_t :=
  { address := 0x68, second := 59, minute := 59, hour := 23, day_of_week := 4,
    date := 31, month := 12, year := 1969 }

/-- The second record of the unit tests: 2019-09-26 14:38:23, day of week 4. -/
def sampleLater : ds3231m_t :=
  { address := 0x68, second := 23, minute := 38, hour := 14, day_of_week := 4,
    date := 26, month := 9, year := 2019 }

/-- An all-zero record. -/
def zeroTime : ds3231m_t :=
  { address := 0, second := 0, minute := 0, hour := 0, day_of_week := 0,
    date := 0, month := 0, year := 0 }

/-- BCD byte of the glossary: the high nibble is the decimal tens digit and the
low nibble is the decimal ones digit. -/
def bcdByte (v : Nat) : Nat := 16 * (v / 10) + v % 10

/-- Day count of the specification, over the unbounded integers: January and
February are months 13 and 14 of the previous year, and
`days = 365*y + y/4 - y/100 + y/400 + 30*m + (3*(m+1))/5 + date - 719561`
with floor division. -/
def spec_days (year month date : Int) : Int :=
  let y := if month ≤ 2 then year - 1 else year
  let m := if month ≤ 2 then month + 12 else month
  365 * y + y / 4 - y / 100 + y / 400 + 30 * m + (3 * (m + 1)) / 5 + date - 719561

/-- Millisecond timestamp of the specification, over the unbounded integers:
`1000 * (86400*days + 3600*hour + 60*minute + second)`. -/
def spec_unixms (ds : ds3231m_t) : Int :=
  1000 * (86400 * spec_days ds.year ds.month ds.date + 3600 * ds.hour + 60 * ds.minute
    + ds.second)

/-- The day count of `convert_dateTime_to_unixms` in natural numbers, without
the machine-width reductions (used to state intermediate lemmas). -/
def dayNumber (y m d : Nat) : Nat :=
  let y' := if m ≤ 2 then y - 1 else y
  let m' := if m ≤ 2 then m + 12 else m
  365 * y' + y' / 4 - y' / 100 + y' / 400 + 30 * m' + 3 * (m' + 1) / 5 + d - 719561

/-- The date part of `convert_unixms_to_dateTime`, as a function of the day
count: the values stored to year, month and date (used to state intermediate
lemmas; `convert_unixms_to_dateTime_eq` ties it to the conversion). -/
def dateFromDays (unix_timestamp : Nat) : Nat × Nat × Nat :=
  let a : Nat := (((4 * unix_timestamp + 102032) % 2 ^ 64) / 146097 + 15) % 2 ^ 64 % 2 ^ 32
  let b : Nat := (unix_timestamp + 2442113 + a + (2 ^ 64 - a / 4)) % 2 ^ 64 % 2 ^ 32
  let c : Nat := ((20 * b + (2 ^ 32 - 2442)) % 2 ^ 32) / 7305
  let d : Nat := (b + (2 ^ 32 - (365 * c) % 2 ^ 32) + (2 ^ 32 - c / 4)) % 2 ^ 32
  let e : Nat := ((d * 1000) % 2 ^ 32) / 30601
  let f : Nat :=
    (d + (2 ^ 32 - (e * 30) % 2 ^ 32) + (2 ^ 32 - ((e * 601) % 2 ^ 32) / 1000)) % 2 ^ 32
  let c' : Nat := if e ≤ 13 then (c + (2 ^ 32 - 4716)) % 2 ^ 32 else (c + (2 ^ 32 - 4715)) % 2 ^ 32
  let e' : Nat := if e ≤ 13 then (e + (2 ^ 32 - 1)) % 2 ^ 32 else (e + (2 ^ 32 - 13)) % 2 ^ 32
  (c' % 65536, e' % 256, f % 256)

/-- The calendar day after the date of `ds` by the Gregorian rule (month ends,
year end and 28/29 February), time of day unchanged. -/
def nextDay (ds : ds3231m_t) : ds3231m_t :=
  if ds.date < daysInMonth ds.year ds.month then { ds with date := ds.date + 1 }
  else if ds.month < 12 then { ds with date := 1, month := ds.month + 1 }
  else { ds with date := 1, month := 1, year := ds.year + 1 }

/-- Chronological order of two date-times: lexicographic on year, month, date,
hour, minute, second. -/
def Before (a b : ds3231m_t) : Prop :=
  a.year < b.year ∨ (a.year = b.year ∧ (a.month < b.month ∨ (a.month = b.month ∧
    (a.date < b.date ∨ (a.date = b.date ∧ (a.hour < b.hour ∨ (a.hour = b.hour ∧
      (a.minute < b.minute ∨ (a.minute = b.minute ∧ a.second < b.second)))))))))

instance (a b : ds3231m_t) : Decidable (Before a b) := by
  unfold Before; infer_instance

/-- A valid Gregorian date-time of the years 1970 to 2099. -/
def ValidSinceEpoch (ds : ds3231m_t) : Prop :=
  1970 ≤ ds.year ∧ ds.year ≤ 2099 ∧ 1 ≤ ds.month ∧ ds.month ≤ 12 ∧
  1 ≤ ds.date ∧ ds.date ≤ daysInMonth ds.year ds.month ∧
  ds.hour ≤ 23 ∧ ds.minute ≤ 59 ∧ ds.second ≤ 59

instance (ds : ds3231m_t) : Decidable (ValidSinceEpoch ds) := by
  unfold ValidSinceEpoch; infer_instance

/-- Modelled from the spec: the temperature decoder
`convert_temperature_unsigned_to_float`, which the unit tests call on the
register pair and which is not part of the sources.  Section 4.2: if the sign
bit of MSB is 0 the result is `msb + (lsb >> 6) * 0.25`, otherwise it is
`-(256 - msb) + (lsb >> 6) * 0.25`.  The value is a rational number: every
result is a multiple of 0.25 between -128 and 127.75, which a `float` holds
exactly. -/
def convert_temperature_unsigned_to_float (msb lsb : Nat) : ℚ :=
  if msb &&& 0x80 = 0 then (msb : ℚ) + ((lsb >>> 6 : Nat) : ℚ) * 0.25
  else -((256 - msb : Nat) : ℚ) + ((lsb >>> 6 : Nat) : ℚ) * 0.25

/-- The 10-bit two's-complement integer `raw` of the specification: MSB in bits
9..2, the top two bits of LSB in bits 1..0, bit 9 the sign. -/
def temperature_raw (msb lsb : Nat) : Int :=
  let field : Nat := (msb <<< 2) ||| (lsb >>> 6)
  if field < 512 then (field : Int) else (field : Int) - 1024

/-! ## BCD codec: lemmas -/

theorem bcd2bin_lt (b : Nat) : bcd2bin b < 256 := by
  unfold bcd2bin toU8
  omega

theorem bin2bcd_of_le (v : Nat) (h : v ≤ 99) : bin2bcd v = v + 6 * (v / 10) := by
  unfold bin2bcd toU8
  omega

theorem bcd2bin_of_lt (b : Nat) (h : b < 256) : bcd2bin b = b - 6 * (b / 16) := by
  unfold bcd2bin toU8
  have hs : b >>> 4 = b / 16 := by
    rw [Nat.shiftRight_eq_div_pow]
  rw [hs]
  omega

theorem bcd2bin_bin2bcd_of_le (v : Nat) (h : v ≤ 99) : bcd2bin (bin2bcd v) = v := by
  rw [bin2bcd_of_le v h, bcd2bin_of_lt _ (by omega)]
  omega

theorem year_offset (y : Nat) (h1 : 2000 ≤ y) (h2 : y ≤ 2099) :
    toU8 ((y : Int) - 2000) = y - 2000 := by
  unfold toU8
  omega

/-- C4: decoding the BCD encoding of any `v` in 0..99 gives `v` back, in the
eight-bit arithmetic of `bcd2bin` and `bin2bcd`. -/
theorem bcd_decode_encode (v : Nat) (h : v ≤ 99) : bcd2bin (bin2bcd v) = v :=
  bcd2bin_bin2bcd_of_le v h

theorem bcd_decode_encode_witness : (59 : Nat) ≤ 99 ∧ bcd2bin (bin2bcd 59) = 59 :=
  ⟨by decide, bcd_decode_encode 59 (by decide)⟩

/-! ## Worked conversions -/

/-- C2: the two worked pairs of the unit tests.  2019-02-12 05:18:39 converts
to 1549948719000 and 2019-09-26 14:38:23 to 1569508703000, and converting each
timestamp back yields the six calendar fields again, for every device address,
day of week and prior content of the output record. -/
theorem convert_worked_pairs (a w : Nat) (out : ds3231m_t) :
    convert_dateTime_to_unixms ⟨a, 39, 18, 5, w, 12, 2, 2019⟩ = 1549948719000 ∧
    convert_dateTime_to_unixms ⟨a, 23, 38, 14, w, 26, 9, 2019⟩ = 1569508703000 ∧
    SameDateTime (convert_unixms_to_dateTime 1549948719000 out)
      ⟨a, 39, 18, 5, w, 12, 2, 2019⟩ ∧
    SameDateTime (convert_unixms_to_dateTime 1569508703000 out)
      ⟨a, 23, 38, 14, w, 26, 9, 2019⟩ := by
  refine ⟨?_, ?_, ?_, ?_⟩
  · simp only [convert_dateTime_to_unixms, toU8, toU16, toU64]
    decide
  · simp only [convert_dateTime_to_unixms, toU8, toU16, toU64]
    decide
  · exact ⟨by rfl, by rfl, by rfl, by rfl, by rfl, by rfl⟩
  · exact ⟨by rfl, by rfl, by rfl, by rfl, by rfl, by rfl⟩

/-! ## Setting the time: what the code does on a failing step -/

/-- C5: run of `DS3231M_setTime` on a bus whose block write fails with status 1
and whose later calls succeed.  The driver does not stop after the failed
write: it goes on to read and to write the status register, and it returns the
status of that last write, 0. -/
theorem setTime_runs_on_after_failed_block_write :
    (DS3231M_setTime (scriptedBus [0x88]) [1, 0, 0] sampleTime).result = 0 ∧
    (DS3231M_setTime (scriptedBus [0x88]) [1, 0, 0] sampleTime).calls =
      [ BusCall.master_write ⟨0x68, 0x00, 1, sampleBlock, 7⟩,
        BusCall.master_read ⟨0x68, 0x0F, 1, [0], 1⟩,
        BusCall.master_write ⟨0x68, 0x0F, 1, [0x08], 1⟩ ] := by
  constructor <;> decide

/-- C6: run of `DS3231M_setTime` on a bus whose block write succeeds, whose
status-register read fails with status 1 and whose final write succeeds.  The
driver returns 0, the status of the final write, not the status 1 of the read
that failed first. -/
theorem setTime_returns_last_status_not_first_failure :
    (DS3231M_setTime (scriptedBus [0x88]) [0, 1, 0] sampleTime).result = 0 ∧
    ((scriptedBus [0x88]).master_read [1, 0]
      ⟨0x68, 0x0F, 1, [0], 1⟩).1.1 = 1 := by
  constructor <;> decide

/-! ## Reading the time -/

/-- C7: when the block read returns a status `r` other than success,
`DS3231M_getTime` returns exactly `r` and the record is left as it was, in
every field. -/
theorem getTime_failure_leaves_record {σ : Type} (TWIHS_SUCCESS : Nat)
    (twihs : Twihs σ) (s0 : σ) (buffer : List Nat) (ds : ds3231m_t) (r : Nat)
    (hr : (twihs.master_read s0 (getTime_packet ds buffer)).1.1 = r)
    (hfail : r ≠ TWIHS_SUCCESS) :
    (DS3231M_getTime TWIHS_SUCCESS twihs s0 buffer ds).result = r ∧
    (DS3231M_getTime TWIHS_SUCCESS twihs s0 buffer ds).ds = ds := by
  subst hr
  unfold DS3231M_getTime
  simp only [if_neg hfail, and_self]

theorem getTime_failure_leaves_record_witness :
    (DS3231M_getTime 0 (scriptedBus sampleBlock) [3] [0, 0, 0, 0, 0, 0, 0]
      zeroTime).result = 3 ∧
    (DS3231M_getTime 0 (scriptedBus sampleBlock) [3] [0, 0, 0, 0, 0, 0, 0]
      zeroTime).ds = zeroTime :=
  getTime_failure_leaves_record 0 (scriptedBus sampleBlock) [3]
    [0, 0, 0, 0, 0, 0, 0] zeroTime 3 (by rfl) (by decide)

theorem getTime_of_success {σ : Type} (TWIHS_SUCCESS : Nat)
    (twihs : Twihs σ) (s0 : σ) (buffer : List Nat) (ds : ds3231m_t)
    (b0 b1 b2 b3 b4 b5 b6 : Nat)
    (hr : (twihs.master_read s0 (getTime_packet ds buffer)).1 =
      (TWIHS_SUCCESS, [b0, b1, b2, b3, b4, b5, b6])) :
    (DS3231M_getTime TWIHS_SUCCESS twihs s0 buffer ds).result = TWIHS_SUCCESS ∧
    (DS3231M_getTime TWIHS_SUCCESS twihs s0 buffer ds).ds =
      { address := ds.address, second := bcd2bin b0, minute := bcd2bin b1,
        hour := bcd2bin b2, day_of_week := bcd2bin b3, date := bcd2bin b4,
        month := bcd2bin b5, year := 2000 + bcd2bin b6 } := by
  have hy : toU16 (2000 + (bcd2bin b6 : Int)) = 2000 + bcd2bin b6 := by
    have := bcd2bin_lt b6
    unfold toU16
    omega
  unfold DS3231M_getTime
  simp only [hr, if_true, List.getD_cons_zero, List.getD_cons_succ,
    DS3231_REGISTER_SECONDS, DS3231_REGISTER_MINUTES, DS3231_REGISTER_HOUR,
    DS3231_REGISTER_DAY, DS3231_REGISTER_DATE, DS3231_REGISTER_MONTH,
    DS3231_REGISTER_YEAR, hy, and_self]

/-- C8: when the block read succeeds and delivers the bytes `b0 .. b6`,
`DS3231M_getTime` returns success and stores the BCD decoding of each byte in
second, minute, hour, day of week, date and month, and 2000 plus the decoding
of `b6` in year; the device address is kept. -/
theorem getTime_success_decodes {σ : Type} (TWIHS_SUCCESS : Nat)
    (twihs : Twihs σ) (s0 : σ) (buffer : List Nat) (ds : ds3231m_t)
    (b0 b1 b2 b3 b4 b5 b6 : Nat)
    (hr : (twihs.master_read s0 (getTime_packet ds buffer)).1 =
      (TWIHS_SUCCESS, [b0, b1, b2, b3, b4, b5, b6])) :
    (DS3231M_getTime TWIHS_SUCCESS twihs s0 buffer ds).result = TWIHS_SUCCESS ∧
    (DS3231M_getTime TWIHS_SUCCESS twihs s0 buffer ds).ds =
      { address := ds.address, second := bcd2bin b0, minute := bcd2bin b1,
        hour := bcd2bin b2, day_of_week := bcd2bin b3, date := bcd2bin b4,
        month := bcd2bin b5, year := 2000 + bcd2bin b6 } :=
  getTime_of_success TWIHS_SUCCESS twihs s0 buffer ds b0 b1 b2 b3 b4 b5 b6 hr

theorem getTime_success_decodes_witness :
    (DS3231M_getTime 0 (scriptedBus sampleBlock) [] [0, 0, 0, 0, 0, 0, 0]
      zeroTime).result = 0 ∧
    (DS3231M_getTime 0 (scriptedBus sampleBlock) [] [0, 0, 0, 0, 0, 0, 0]
      zeroTime).ds =
      { address := 0, second := 39, minute := 18, hour := 5, day_of_week := 1,
        date := 12, month := 2, year := 2019 } :=
  getTime_success_decodes 0 (scriptedBus sampleBlock) [] [0, 0, 0, 0, 0, 0, 0]
    zeroTime 0x39 0x18 0x05 0x01 0x12 0x02 0x19 (by rfl)

/-! ## The wire format -/

theorem setTime_first_call {σ : Type} (twihs : Twihs σ) (s0 : σ) (ds : ds3231m_t) :
    (DS3231M_setTime twihs s0 ds).calls.head? =
      some (BusCall.master_write (setTime_packet ds)) := by
  unfold DS3231M_setTime
  rfl

theorem bin2bcd_eq_bcdByte (v : Nat) (h : v ≤ 99) : bin2bcd v = bcdByte v := by
  rw [bin2bcd_of_le v h]
  unfold bcdByte
  omega

/-- C9: for every record within the register ranges, parsing with
`DS3231M_getTime` (successful read) the block that `DS3231M_setTime` hands to
the bus in its first call reproduces second, minute, hour, day of week, date,
month and year exactly. -/
theorem getTime_parses_setTime_block {σ τ : Type} (TWIHS_SUCCESS : Nat)
    (wbus : Twihs τ) (t0 : τ) (rbus : Twihs σ) (s0 : σ) (buffer : List Nat)
    (dt out : ds3231m_t) (p : twihs_packet_t) (hdt : RegisterRange dt)
    (hw : (DS3231M_setTime wbus t0 dt).calls.head? = some (BusCall.master_write p))
    (hr : (rbus.master_read s0 (getTime_packet out buffer)).1 =
      (TWIHS_SUCCESS, p.buffer)) :
    (DS3231M_getTime TWIHS_SUCCESS rbus s0 buffer out).result = TWIHS_SUCCESS ∧
    (DS3231M_getTime TWIHS_SUCCESS rbus s0 buffer out).ds =
      { dt with address := out.address } := by
  obtain ⟨h1, h2, h3, h4, h5, h6, h7, h8, h9, h10, h11⟩ := hdt
  rw [setTime_first_call] at hw
  have hp : p = setTime_packet dt := by
    injection hw with hw
    injection hw with hw
    exact hw.symm
  subst hp
  have hbuf : (setTime_packet dt).buffer = setTime_buffer dt := rfl
  rw [hbuf] at hr
  unfold setTime_buffer at hr
  obtain ⟨hres, hds⟩ := getTime_of_success TWIHS_SUCCESS rbus s0 buffer out _ _ _ _ _ _ _ hr
  refine ⟨hres, ?_⟩
  rw [hds, year_offset dt.year h10 h11,
    bcd2bin_bin2bcd_of_le _ (by omega : dt.second ≤ 99),
    bcd2bin_bin2bcd_of_le _ (by omega : dt.minute ≤ 99),
    bcd2bin_bin2bcd_of_le _ (by omega : dt.hour ≤ 99),
    bcd2bin_bin2bcd_of_le _ (by omega : dt.day_of_week ≤ 99),
    bcd2bin_bin2bcd_of_le _ (by omega : dt.date ≤ 99),
    bcd2bin_bin2bcd_of_le _ (by omega : dt.month ≤ 99),
    bcd2bin_bin2bcd_of_le _ (by omega : dt.year - 2000 ≤ 99)]
  have hyear : 2000 + (dt.year - 2000) = dt.year := by omega
  rw [hyear]

theorem getTime_parses_setTime_block_witness :
    (DS3231M_getTime 0 (scriptedBus sampleBlock) [] [0, 0, 0, 0, 0, 0, 0]
      zeroTime).result = 0 ∧
    (DS3231M_getTime 0 (scriptedBus sampleBlock) [] [0, 0, 0, 0, 0, 0, 0]
      zeroTime).ds = { sampleTime with address := zeroTime.address } :=
  getTime_parses_setTime_block 0 (scriptedBus []) [] (scriptedBus sampleBlock) []
    [0, 0, 0, 0, 0, 0, 0] sampleTime zeroTime ⟨0x68, 0x00, 1, sampleBlock, 7⟩
    (by decide) (by decide) (by rfl)

theorem setTime_block_eq (dt : ds3231m_t) (hdt : RegisterRange dt) :
    setTime_packet dt =
      { chip := dt.address, addr0 := 0x00, addr_length := 1,
        buffer := [bcdByte dt.second, bcdByte dt.minute, bcdByte dt.hour,
          bcdByte dt.day_of_week, bcdByte dt.date, bcdByte dt.month,
          bcdByte (dt.year - 2000)],
        length := 7 } := by
  obtain ⟨h1, h2, h3, h4, h5, h6, h7, h8, h9, h10, h11⟩ := hdt
  unfold setTime_packet setTime_buffer
  rw [year_offset dt.year h10 h11,
    bin2bcd_eq_bcdByte _ (by omega : dt.second ≤ 99),
    bin2bcd_eq_bcdByte _ (by omega : dt.minute ≤ 99),
    bin2bcd_eq_bcdByte _ (by omega : dt.hour ≤ 99),
    bin2bcd_eq_bcdByte _ (by omega : dt.day_of_week ≤ 99),
    bin2bcd_eq_bcdByte _ (by omega : dt.date ≤ 99),
    bin2bcd_eq_bcdByte _ (by omega : dt.month ≤ 99),
    bin2bcd_eq_bcdByte _ (by omega : dt.year - 2000 ≤ 99)]
  rfl

/-- C10: for every record within the register ranges and every bus, the first
operation that `DS3231M_setTime` performs on the bus is a write to the record's
device address, starting at register 0x00 with one address byte, of exactly
seven bytes: the BCD bytes of second, minute, hour, day of week, date, month and
year minus 2000, in this order.  Run on a bus that logs the calls reaching it,
the log starts with this write, it is followed only by the read and the write
of register 0x0F, and the bus is left in the state these three calls produce
from the initial state, the block write being applied to the initial state
itself.  The day-of-week byte is the plain value 1..7. -/
theorem setTime_first_call_writes_block {σ : Type} (twihs : Twihs σ) (s0 : σ)
    (dt : ds3231m_t) (hdt : RegisterRange dt) :
    (DS3231M_setTime (recordingBus twihs) (s0, []) dt).bus.2.head? =
      some (BusCall.master_write
        { chip := dt.address, addr0 := 0x00, addr_length := 1,
          buffer := [bcdByte dt.second, bcdByte dt.minute, bcdByte dt.hour,
            bcdByte dt.day_of_week, bcdByte dt.date, bcdByte dt.month,
            bcdByte (dt.year - 2000)],
          length := 7 }) ∧
    (∃ status_reg written : Nat,
      (DS3231M_setTime (recordingBus twihs) (s0, []) dt).bus.2 =
        [ BusCall.master_write
            { chip := dt.address, addr0 := 0x00, addr_length := 1,
              buffer := [bcdByte dt.second, bcdByte dt.minute, bcdByte dt.hour,
                bcdByte dt.day_of_week, bcdByte dt.date, bcdByte dt.month,
                bcdByte (dt.year - 2000)],
              length := 7 },
          BusCall.master_read
            { chip := dt.address, addr0 := 0x0F, addr_length := 1,
              buffer := [status_reg], length := 1 },
          BusCall.master_write
            { chip := dt.address, addr0 := 0x0F, addr_length := 1,
              buffer := [written], length := 1 } ] ∧
      (DS3231M_setTime twihs s0 dt).bus =
        (twihs.master_write
          (twihs.master_read
            (twihs.master_write s0
              { chip := dt.address, addr0 := 0x00, addr_length := 1,
                buffer := [bcdByte dt.second, bcdByte dt.minute, bcdByte dt.hour,
                  bcdByte dt.day_of_week, bcdByte dt.date, bcdByte dt.month,
                  bcdByte (dt.year - 2000)],
                length := 7 }).2
            { chip := dt.address, addr0 := 0x0F, addr_length := 1,
              buffer := [status_reg], length := 1 }).2
          { chip := dt.address, addr0 := 0x0F, addr_length := 1,
            buffer := [written], length := 1 }).2) ∧
    (DS3231M_setTime twihs s0 dt).calls.head? =
      some (BusCall.master_write
        { chip := dt.address, addr0 := 0x00, addr_length := 1,
          buffer := [bcdByte dt.second, bcdByte dt.minute, bcdByte dt.hour,
            bcdByte dt.day_of_week, bcdByte dt.date, bcdByte dt.month,
            bcdByte (dt.year - 2000)],
          length := 7 }) ∧
    bcdByte dt.day_of_week = dt.day_of_week := by
  have hblock := setTime_block_eq dt hdt
  have hrec : (DS3231M_setTime (recordingBus twihs) (s0, []) dt).bus.2 =
      [ BusCall.master_write (setTime_packet dt),
        BusCall.master_read
          { chip := dt.address, addr0 := 0x0F, addr_length := 1, buffer := [0],
            length := 1 },
        BusCall.master_write
          { chip := dt.address, addr0 := 0x0F, addr_length := 1,
            buffer := [(((twihs.master_read (twihs.master_write s0 (setTime_packet dt)).2
              { chip := dt.address, addr0 := 0x0F, addr_length := 1, buffer := [0],
                length := 1 }).1.2.headD 0) &&& 0xFFFFFF7F) % 256],
            length := 1 } ] := by
    unfold DS3231M_setTime recordingBus
    rfl
  have hstate : (DS3231M_setTime twihs s0 dt).bus =
      (twihs.master_write
        (twihs.master_read (twihs.master_write s0 (setTime_packet dt)).2
          { chip := dt.address, addr0 := 0x0F, addr_length := 1, buffer := [0],
            length := 1 }).2
        { chip := dt.address, addr0 := 0x0F, addr_length := 1,
          buffer := [(((twihs.master_read (twihs.master_write s0 (setTime_packet dt)).2
            { chip := dt.address, addr0 := 0x0F, addr_length := 1, buffer := [0],
              length := 1 }).1.2.headD 0) &&& 0xFFFFFF7F) % 256],
          length := 1 }).2 := by
    unfold DS3231M_setTime
    rfl
  have hcalls : (DS3231M_setTime twihs s0 dt).calls.head? =
      some (BusCall.master_write (setTime_packet dt)) := by
    unfold DS3231M_setTime
    rfl
  obtain ⟨h1, h2, h3, h4, h5, h6, h7, h8, h9, h10, h11⟩ := hdt
  rw [hrec, hcalls, hstate, hblock]
  refine ⟨rfl, ⟨_, _, rfl, rfl⟩, rfl, ?_⟩
  unfold bcdByte
  omega

theorem setTime_first_call_writes_block_witness :
    ((DS3231M_setTime (recordingBus (scriptedBus [0x88])) ([], []) sampleTime).bus.2.head? =
      some (BusCall.master_write
        { chip := 0x68, addr0 := 0x00, addr_length := 1,
          buffer := [bcdByte 39, bcdByte 18, bcdByte 5, bcdByte 1, bcdByte 12,
            bcdByte 2, bcdByte (2019 - 2000)],
          length := 7 }) ∧
    (DS3231M_setTime (scriptedBus [0x88]) [] sampleTime).calls.head? =
      some (BusCall.master_write
        { chip := 0x68, addr0 := 0x00, addr_length := 1,
          buffer := [bcdByte 39, bcdByte 18, bcdByte 5, bcdByte 1, bcdByte 12,
            bcdByte 2, bcdByte (2019 - 2000)],
          length := 7 }) ∧
    bcdByte 1 = 1) ∧
    (DS3231M_setTime (recordingBus (scriptedBus [0x88])) ([], []) sampleTime).bus =
      ([], [ BusCall.master_write ⟨0x68, 0x00, 1, sampleBlock, 7⟩,
             BusCall.master_read ⟨0x68, 0x0F, 1, [0], 1⟩,
             BusCall.master_write ⟨0x68, 0x0F, 1, [0x08], 1⟩ ]) :=
  ⟨⟨(setTime_first_call_writes_block (scriptedBus [0x88]) [] sampleTime (by decide)).1,
      (setTime_first_call_writes_block (scriptedBus [0x88]) [] sampleTime (by decide)).2.2⟩,
    by decide⟩

/-! ## Calendar conversion: from a date-time to the timestamp -/

theorem toU64_of_nat (n : Nat) (i : Int) (hi : i = (n : Int)) (h : n < 2 ^ 64) : toU64 i = n := by
  subst hi
  unfold toU64
  omega

theorem dayNumber_bounds (y m d : Nat) (hy1 : 2000 ≤ y) (hy2 : y ≤ 2099)
    (hm1 : 1 ≤ m) (hm2 : m ≤ 12) (hd1 : 1 ≤ d) (hd2 : d ≤ 31) :
    10957 ≤ dayNumber y m d ∧ dayNumber y m d ≤ 47483 := by
  unfold dayNumber
  by_cases hm : m ≤ 2
  · simp only [if_pos hm]
    by_cases h0 : y = 2000
    · subst h0
      omega
    · have h100 : (y - 1) / 100 = 20 := by omega
      have h400 : (y - 1) / 400 = 5 := by omega
      omega
  · simp only [if_neg hm]
    have h100 : y / 100 = 20 := by omega
    have h400 : y / 400 = 5 := by omega
    omega

theorem convert_dateTime_to_unixms_eq (ds : ds3231m_t) (hy1 : 2000 ≤ ds.year) (hy2 : ds.year ≤ 2099)
    (hm1 : 1 ≤ ds.month) (hm2 : ds.month ≤ 12) (hd1 : 1 ≤ ds.date) (hd2 : ds.date ≤ 31)
    (hh : ds.hour ≤ 23) (hmi : ds.minute ≤ 59) (hs : ds.second ≤ 59) :
    convert_dateTime_to_unixms ds =
      1000 * (86400 * dayNumber ds.year ds.month ds.date + 3600 * ds.hour + 60 * ds.minute
        + ds.second) := by
  obtain ⟨a, s, mi, h, w, d, m, y⟩ := ds
  simp only at *
  have hb := dayNumber_bounds y m d hy1 hy2 hm1 hm2 hd1 hd2
  have ht : toU64 (3600 * (h : Int) + 60 * (mi : Int) + (s : Int)) = 3600 * h + 60 * mi + s :=
    toU64_of_nat _ _ (by push_cast; ring) (by omega)
  unfold convert_dateTime_to_unixms
  simp only [ht]
  unfold dayNumber at hb ⊢
  by_cases hm : m ≤ 2
  · simp only [if_pos hm] at hb ⊢
    have hm' : toU8 ((m : Int) + 12) = m + 12 := by unfold toU8; omega
    have hy' : toU16 ((y : Int) - 1) = y - 1 := by unfold toU16; omega
    rw [hm', hy']
    have hA : toU64 (365 * ((y - 1 : Nat) : Int) + (((y - 1) / 4 : Nat) : Int)
        - (((y - 1) / 100 : Nat) : Int) + (((y - 1) / 400 : Nat) : Int))
        = 365 * (y - 1) + (y - 1) / 4 - (y - 1) / 100 + (y - 1) / 400 :=
      toU64_of_nat _ _ (by omega) (by omega)
    have hB : toU64 (30 * ((m + 12 : Nat) : Int) + ((3 * (m + 12 + 1) / 5 : Nat) : Int) + (d : Int))
        = 30 * (m + 12) + 3 * (m + 12 + 1) / 5 + d :=
      toU64_of_nat _ _ (by omega) (by omega)
    rw [hA, hB]
    omega
  · simp only [if_neg hm] at hb ⊢
    have hA : toU64 (365 * (y : Int) + ((y / 4 : Nat) : Int)
        - ((y / 100 : Nat) : Int) + ((y / 400 : Nat) : Int))
        = 365 * y + y / 4 - y / 100 + y / 400 :=
      toU64_of_nat _ _ (by omega) (by omega)
    have hB : toU64 (30 * (m : Int) + ((3 * (m + 1) / 5 : Nat) : Int) + (d : Int))
        = 30 * m + 3 * (m + 1) / 5 + d :=
      toU64_of_nat _ _ (by omega) (by omega)
    rw [hA, hB]
    omega

/-- C3: for year 2000..2099, month 1..12, date 1..31, hour 0..23, minute 0..59
and second 0..59, `convert_dateTime_to_unixms` returns exactly the
specification's `1000 * (86400*days + 3600*hour + 60*minute + second)` computed
over the unbounded integers: no machine-width step wraps or truncates. -/
theorem convert_dateTime_to_unixms_refines_spec (ds : ds3231m_t)
    (hy1 : 2000 ≤ ds.year) (hy2 : ds.year ≤ 2099)
    (hm1 : 1 ≤ ds.month) (hm2 : ds.month ≤ 12) (hd1 : 1 ≤ ds.date) (hd2 : ds.date ≤ 31)
    (hh : ds.hour ≤ 23) (hmi : ds.minute ≤ 59) (hs : ds.second ≤ 59) :
    (convert_dateTime_to_unixms ds : Int) = spec_unixms ds := by
  rw [convert_dateTime_to_unixms_eq ds hy1 hy2 hm1 hm2 hd1 hd2 hh hmi hs]
  have hb := dayNumber_bounds ds.year ds.month ds.date hy1 hy2 hm1 hm2 hd1 hd2
  unfold spec_unixms spec_days
  unfold dayNumber at hb ⊢
  by_cases hm : ds.month ≤ 2
  · have hm' : (ds.month : Int) ≤ 2 := by omega
    simp only [if_pos hm, if_pos hm'] at hb ⊢
    have e4 : ((ds.year : Int) - 1) / 4 = (((ds.year - 1) / 4 : Nat) : Int) := by omega
    have e100 : ((ds.year : Int) - 1) / 100 = (((ds.year - 1) / 100 : Nat) : Int) := by omega
    have e400 : ((ds.year : Int) - 1) / 400 = (((ds.year - 1) / 400 : Nat) : Int) := by omega
    have e5 : (3 * ((ds.month : Int) + 12 + 1)) / 5
        = ((3 * (ds.month + 12 + 1) / 5 : Nat) : Int) := by omega
    rw [e4, e100, e400, e5]
    omega
  · have hm' : ¬ (ds.month : Int) ≤ 2 := by omega
    simp only [if_neg hm, if_neg hm'] at hb ⊢
    omega

theorem convert_dateTime_to_unixms_refines_spec_witness :
    (convert_dateTime_to_unixms sampleTime : Int) = spec_unixms sampleTime :=
  convert_dateTime_to_unixms_refines_spec sampleTime (by decide) (by decide)
    (by decide) (by decide) (by decide) (by decide) (by decide) (by decide) (by decide)

/-! ## Calendar conversion: from the timestamp to a date-time -/

theorem convert_unixms_to_dateTime_eq (ts : Nat) (out : ds3231m_t) :
    convert_unixms_to_dateTime ts out =
      { address := out.address, day_of_week := out.day_of_week,
        second := ts / 1000 % 60, minute := ts / 1000 / 60 % 60,
        hour := ts / 1000 / 60 / 60 % 24,
        year := (dateFromDays (ts / 1000 / 60 / 60 / 24)).1,
        month := (dateFromDays (ts / 1000 / 60 / 60 / 24)).2.1,
        date := (dateFromDays (ts / 1000 / 60 / 60 / 24)).2.2 } := by
  have h0 : (if ts < 1 then 0 else ts) = ts := by
    split <;> omega
  have h1 : ts / 1000 % 60 % 256 = ts / 1000 % 60 := by omega
  have h2 : ts / 1000 / 60 % 60 % 256 = ts / 1000 / 60 % 60 := by omega
  have h3 : ts / 1000 / 60 / 60 % 24 % 256 = ts / 1000 / 60 / 60 % 24 := by omega
  unfold convert_unixms_to_dateTime dateFromDays
  simp only [h0, h1, h2, h3]

theorem inv_a (D : Nat) (h : D ≤ 47540) :
    (((4 * D + 102032) % 2 ^ 64) / 146097 + 15) % 2 ^ 64 % 2 ^ 32 = 15 ∨
    (((4 * D + 102032) % 2 ^ 64) / 146097 + 15) % 2 ^ 64 % 2 ^ 32 = 16 := by
  have h4 : (4 * D + 102032) % 2 ^ 64 = 4 * D + 102032 := by omega
  rw [h4]
  have ha' : (4 * D + 102032) / 146097 = 0 ∨ (4 * D + 102032) / 146097 = 1 := by omega
  rcases ha' with h | h <;> rw [h]
  · left; rfl
  · right; rfl

theorem inv_b (D a : Nat) (h : D ≤ 47540) (ha : a = 15 ∨ a = 16) :
    (D + 2442113 + a + (2 ^ 64 - a / 4)) % 2 ^ 64 % 2 ^ 32 = D + 2442125 := by
  rcases ha with h | h <;> subst h <;> omega

theorem inv_c (y M : Nat) (hy : y ≤ 2099) (hM1 : 93 ≤ M)
    (hM2 : M ≤ 457 ∨ (M = 458 ∧ y % 4 = 3)) :
    ((20 * (365 * y + y / 4 + M + 1722549) + (2 ^ 32 - 2442)) % 2 ^ 32) / 7305 = y + 4716 := by
  have h1 : (20 * (365 * y + y / 4 + M + 1722549) + (2 ^ 32 - 2442)) % 2 ^ 32
      = 20 * (365 * y + y / 4 + M + 1722549) - 2442 := by omega
  rw [h1]
  apply Nat.div_eq_of_lt_le <;> omega

theorem inv_d (y M : Nat) (hy : y ≤ 2099) (hM2 : M ≤ 458) :
    (365 * y + y / 4 + M + 1722549 + (2 ^ 32 - (365 * (y + 4716)) % 2 ^ 32)
      + (2 ^ 32 - (y + 4716) / 4)) % 2 ^ 32 = M + 30 := by
  have h1 : (365 * (y + 4716)) % 2 ^ 32 = 365 * y + 1721340 := by omega
  have h2 : (y + 4716) / 4 = y / 4 + 1179 := by omega
  rw [h1, h2]
  omega

theorem inv_e (m d : Nat) (hm1 : 3 ≤ m) (hm2 : m ≤ 14) (hd1 : 1 ≤ d) (hd2 : d ≤ 31)
    (hd30 : m = 4 ∨ m = 6 ∨ m = 9 ∨ m = 11 → d ≤ 30) (hd29 : m = 14 → d ≤ 29) :
    ((30 * m + 3 * (m + 1) / 5 + d + 30) * 1000 % 2 ^ 32) / 30601 = m + 1 := by
  have h1 : (30 * m + 3 * (m + 1) / 5 + d + 30) * 1000 % 2 ^ 32
      = (30 * m + 3 * (m + 1) / 5 + d + 30) * 1000 := Nat.mod_eq_of_lt (by omega)
  rw [h1]
  interval_cases m <;> simp only [Nat.reduceAdd, Nat.reduceMul, Nat.reduceDiv] <;>
    apply Nat.div_eq_of_lt_le <;> omega

theorem inv_f (m d : Nat) (hm1 : 3 ≤ m) (hm2 : m ≤ 14) (hd2 : d ≤ 31) :
    (30 * m + 3 * (m + 1) / 5 + d + 30 + (2 ^ 32 - ((m + 1) * 30) % 2 ^ 32)
      + (2 ^ 32 - (((m + 1) * 601) % 2 ^ 32) / 1000)) % 2 ^ 32 = d := by
  interval_cases m <;> simp only [Nat.reduceAdd, Nat.reduceMul, Nat.reduceDiv] <;> omega

theorem dateFromDays_shifted (y m d : Nat) (hy1 : 1999 ≤ y) (hy2 : y ≤ 2099)
    (hm1 : 3 ≤ m) (hm2 : m ≤ 14) (hd1 : 1 ≤ d)
    (hd2 : d ≤ 31) (hd30 : m = 4 ∨ m = 6 ∨ m = 9 ∨ m = 11 → d ≤ 30)
    (hd29 : m = 14 → d ≤ 29) (hd28 : m = 14 → (y + 1) % 4 ≠ 0 → d ≤ 28)
    (hlast : y = 2099 → m ≤ 12) :
    dateFromDays (365 * y + y / 4 - y / 100 + y / 400 + 30 * m + 3 * (m + 1) / 5 + d - 719561)
      = (if m ≤ 12 then y else y + 1, if m ≤ 12 then m else m - 12, d) := by
  have hcent : y / 100 = 19 ∧ y / 400 = 4 ∨ y / 100 = 20 ∧ y / 400 = 5 := by
    by_cases h : y = 1999
    · subst h; left; constructor <;> rfl
    · right; constructor <;> omega
  have hM1 : 93 ≤ 30 * m + 3 * (m + 1) / 5 + d := by omega
  have hM2 : 30 * m + 3 * (m + 1) / 5 + d ≤ 457 ∨
      (30 * m + 3 * (m + 1) / 5 + d = 458 ∧ y % 4 = 3) := by
    by_cases h14 : m = 14
    · subst h14
      have := hd29 rfl
      by_cases hl : (y + 1) % 4 = 0
      · omega
      · have := hd28 rfl hl
        omega
    · left; omega
  have hM3 : 30 * m + 3 * (m + 1) / 5 + d ≤ 458 := by omega
  have hD : 365 * y + y / 4 - y / 100 + y / 400 + 30 * m + 3 * (m + 1) / 5 + d - 719561
      = 365 * y + y / 4 + (30 * m + 3 * (m + 1) / 5 + d) - 719576 := by
    rcases hcent with ⟨h1, h2⟩ | ⟨h1, h2⟩ <;> rw [h1, h2] <;> omega
  rw [hD]
  have hDhi : 365 * y + y / 4 + (30 * m + 3 * (m + 1) / 5 + d) - 719576 ≤ 47540 := by
    by_cases h : y = 2099
    · have := hlast h
      omega
    · omega
  have hb' : 365 * y + y / 4 + (30 * m + 3 * (m + 1) / 5 + d) - 719576 + 2442125
      = 365 * y + y / 4 + (30 * m + 3 * (m + 1) / 5 + d) + 1722549 := by omega
  unfold dateFromDays
  dsimp only
  rw [inv_b _ _ hDhi (inv_a _ hDhi), hb', inv_c y _ hy2 hM1 hM2, inv_d y _ hy2 hM3,
    inv_e m d hm1 hm2 hd1 hd2 hd30 hd29, inv_f m d hm1 hm2 hd2]
  by_cases hm : m ≤ 12
  · have hm' : m + 1 ≤ 13 := by omega
    simp only [if_pos hm, if_pos hm']
    refine Prod.ext ?_ (Prod.ext ?_ ?_) <;> simp only <;> omega
  · have hm' : ¬ m + 1 ≤ 13 := by omega
    simp only [if_neg hm, if_neg hm']
    refine Prod.ext ?_ (Prod.ext ?_ ?_) <;> simp only <;> omega

theorem daysInMonth_le (y m : Nat) : daysInMonth y m ≤ 31 := by
  unfold daysInMonth
  split
  · split <;> omega
  · split <;> omega

theorem daysInMonth_thirty (y m : Nat) (h : m = 4 ∨ m = 6 ∨ m = 9 ∨ m = 11) :
    daysInMonth y m = 30 := by
  unfold daysInMonth
  have h2 : ¬ m = 2 := by omega
  simp only [if_neg h2, if_pos h]

theorem daysInMonth_feb_le (y : Nat) : daysInMonth y 2 ≤ 29 := by
  unfold daysInMonth
  simp only [if_true]
  split <;> omega

theorem daysInMonth_feb_common (y : Nat) (h : y % 4 ≠ 0) : daysInMonth y 2 = 28 := by
  unfold daysInMonth isLeapYear
  simp [h]

theorem dateFromDays_dayNumber (y m d : Nat) (hy1 : 2000 ≤ y) (hy2 : y ≤ 2099)
    (hm1 : 1 ≤ m) (hm2 : m ≤ 12) (hd1 : 1 ≤ d) (hd2 : d ≤ daysInMonth y m) :
    dateFromDays (dayNumber y m d) = (y, m, d) := by
  have h31 := daysInMonth_le y m
  unfold dayNumber
  by_cases hm : m ≤ 2
  · simp only [if_pos hm]
    rw [dateFromDays_shifted (y - 1) (m + 12) d (by omega) (by omega) (by omega)
      (by omega) hd1 (by omega) (by omega)
      (by intro h
          have h2 : m = 2 := by omega
          subst h2
          have := daysInMonth_feb_le y
          omega)
      (by intro h hl
          have h2 : m = 2 := by omega
          subst h2
          have := daysInMonth_feb_common y (by omega)
          omega)
      (by omega)]
    have hn : ¬ m + 12 ≤ 12 := by omega
    simp only [if_neg hn]
    refine Prod.ext ?_ (Prod.ext ?_ ?_) <;> simp only <;> omega
  · simp only [if_neg hm]
    rw [dateFromDays_shifted y m d (by omega) hy2 (by omega) (by omega) hd1 (by omega)
      (by intro h
          have := daysInMonth_thirty y m h
          omega)
      (by omega) (by omega) (by omega)]
    have hn : m ≤ 12 := hm2
    simp only [if_pos hn]

theorem convert_roundtrip_of_valid (dt out : ds3231m_t) (h : ValidDateTime dt) :
    SameDateTime (convert_unixms_to_dateTime (convert_dateTime_to_unixms dt) out) dt := by
  obtain ⟨hy1, hy2, hm1, hm2, hd1, hd2, hh, hmi, hs⟩ := h
  have h31 := daysInMonth_le dt.year dt.month
  rw [convert_dateTime_to_unixms_eq dt hy1 hy2 hm1 hm2 hd1 (by omega) hh hmi hs,
    convert_unixms_to_dateTime_eq]
  generalize hD : dayNumber dt.year dt.month dt.date = D
  have hday : 1000 * (86400 * D + 3600 * dt.hour + 60 * dt.minute + dt.second)
      / 1000 / 60 / 60 / 24 = D := by omega
  rw [hday, ← hD, dateFromDays_dayNumber dt.year dt.month dt.date hy1 hy2 hm1 hm2 hd1 hd2]
  unfold SameDateTime
  simp only
  rw [hD]
  refine ⟨?_, ?_, ?_, ?_, ?_, ?_⟩ <;> first | omega | exact True.intro

/-- C1: for every valid Gregorian date-time of the years 2000..2099, converting
to the millisecond timestamp and back yields the same second, minute, hour,
date, month and year, whatever the output record held before. -/
theorem convert_roundtrip (dt out : ds3231m_t) (h : ValidDateTime dt) :
    SameDateTime (convert_unixms_to_dateTime (convert_dateTime_to_unixms dt) out) dt :=
  convert_roundtrip_of_valid dt out h

theorem convert_roundtrip_witness :
    ValidDateTime sampleTime ∧
    SameDateTime (convert_unixms_to_dateTime (convert_dateTime_to_unixms sampleTime)
      zeroTime) sampleTime :=
  ⟨by decide, convert_roundtrip sampleTime zeroTime (by decide)⟩

/-! ## Setting the time: the status register -/

theorem osf_mask (s : Nat) (h : s < 256) : (s &&& 0xFFFFFF7F) % 256 = s &&& 0x7F := by
  interval_cases s <;> rfl

theorem setTime_third_call {σ : Type} (twihs : Twihs σ) (s0 : σ) (ds : ds3231m_t) :
    (DS3231M_setTime twihs s0 ds).calls.get? 2 =
      some (BusCall.master_write
        { chip := ds.address, addr0 := 0x0F, addr_length := 1,
          buffer := [(((twihs.master_read (twihs.master_write s0 (setTime_packet ds)).2
            { chip := ds.address, addr0 := 0x0F, addr_length := 1, buffer := [0],
              length := 1 }).1.2.headD 0) &&& 0xFFFFFF7F) % 256],
          length := 1 }) := by
  unfold DS3231M_setTime
  rfl

/-- C11: when the status-register read of `DS3231M_setTime` delivers the byte
`s`, the third bus call writes one byte to register 0x0F of the device, and
that byte is `s AND 0x7F`: bit 7 (OSF) is cleared and bits 0..6 are those of
`s`.  Run on a bus that logs the calls reaching it, the third logged call is
this write.  This holds for every 8-bit `s` and whatever statuses the bus
returns, so in particular when all three steps succeed. -/
theorem setTime_clears_osf {σ : Type} (twihs : Twihs σ) (s0 : σ) (ds : ds3231m_t)
    (s : Nat) (hs : s < 256)
    (hread : (twihs.master_read (twihs.master_write s0 (setTime_packet ds)).2
      { chip := ds.address, addr0 := 0x0F, addr_length := 1, buffer := [0],
        length := 1 }).1.2 = [s]) :
    (DS3231M_setTime twihs s0 ds).calls.get? 2 =
      some (BusCall.master_write
        { chip := ds.address, addr0 := 0x0F, addr_length := 1,
          buffer := [s &&& 0x7F], length := 1 }) ∧
    (s &&& 0x7F).testBit 7 = false ∧
    (∀ i, i < 7 → (s &&& 0x7F).testBit i = s.testBit i) ∧
    (DS3231M_setTime (recordingBus twihs) (s0, []) ds).bus.2.get? 2 =
      some (BusCall.master_write
        { chip := ds.address, addr0 := 0x0F, addr_length := 1,
          buffer := [s &&& 0x7F], length := 1 }) ∧
    (DS3231M_setTime twihs s0 ds).bus =
      (twihs.master_write
        (twihs.master_read (twihs.master_write s0 (setTime_packet ds)).2
          { chip := ds.address, addr0 := 0x0F, addr_length := 1, buffer := [0],
            length := 1 }).2
        { chip := ds.address, addr0 := 0x0F, addr_length := 1,
          buffer := [s &&& 0x7F], length := 1 }).2 := by
  have hthird : (DS3231M_setTime twihs s0 ds).calls.get? 2 =
      some (BusCall.master_write
        { chip := ds.address, addr0 := 0x0F, addr_length := 1,
          buffer := [s &&& 0x7F], length := 1 }) := by
    rw [setTime_third_call, hread, List.headD_cons, osf_mask s hs]
  refine ⟨hthird, ?_, ?_, ?_, ?_⟩
  · rw [Nat.testBit_and]
    have h7 : Nat.testBit 0x7F 7 = false := by decide
    rw [h7, Bool.and_false]
  · intro i hi
    rw [Nat.testBit_and]
    have hbit : Nat.testBit 0x7F i = true := by
      interval_cases i <;> decide
    rw [hbit, Bool.and_true]
  · have hrec : (DS3231M_setTime (recordingBus twihs) (s0, []) ds).bus.2.get? 2 =
        some (BusCall.master_write
          { chip := ds.address, addr0 := 0x0F, addr_length := 1,
            buffer := [(((twihs.master_read (twihs.master_write s0 (setTime_packet ds)).2
              { chip := ds.address, addr0 := 0x0F, addr_length := 1, buffer := [0],
                length := 1 }).1.2.headD 0) &&& 0xFFFFFF7F) % 256],
            length := 1 }) := by
      unfold DS3231M_setTime recordingBus
      rfl
    rw [hrec, hread, List.headD_cons, osf_mask s hs]
  · have hstate : (DS3231M_setTime twihs s0 ds).bus =
        (twihs.master_write
          (twihs.master_read (twihs.master_write s0 (setTime_packet ds)).2
            { chip := ds.address, addr0 := 0x0F, addr_length := 1, buffer := [0],
              length := 1 }).2
          { chip := ds.address, addr0 := 0x0F, addr_length := 1,
            buffer := [(((twihs.master_read (twihs.master_write s0 (setTime_packet ds)).2
              { chip := ds.address, addr0 := 0x0F, addr_length := 1, buffer := [0],
                length := 1 }).1.2.headD 0) &&& 0xFFFFFF7F) % 256],
            length := 1 }).2 := by
      unfold DS3231M_setTime
      rfl
    rw [hstate, hread, List.headD_cons, osf_mask s hs]

theorem setTime_clears_osf_witness :
    ((DS3231M_setTime (scriptedBus [0x88]) [] sampleTime).calls.get? 2 =
      some (BusCall.master_write
        { chip := 0x68, addr0 := 0x0F, addr_length := 1,
          buffer := [0x88 &&& 0x7F], length := 1 }) ∧
    (0x88 &&& 0x7F).testBit 7 = false ∧
    (∀ i, i < 7 → (0x88 &&& 0x7F).testBit i = (0x88).testBit i) ∧
    (DS3231M_setTime (recordingBus (scriptedBus [0x88])) ([], []) sampleTime).bus.2.get? 2 =
      some (BusCall.master_write
        { chip := 0x68, addr0 := 0x0F, addr_length := 1,
          buffer := [0x88 &&& 0x7F], length := 1 })) ∧
    (DS3231M_setTime (recordingBus (scriptedBus [0x88])) ([], []) sampleTime).bus.2.get? 2 =
      some (BusCall.master_write ⟨0x68, 0x0F, 1, [0x08], 1⟩) :=
  ⟨⟨(setTime_clears_osf (scriptedBus [0x88]) [] sampleTime 0x88 (by decide) (by rfl)).1,
      (setTime_clears_osf (scriptedBus [0x88]) [] sampleTime 0x88 (by decide) (by rfl)).2.1,
      (setTime_clears_osf (scriptedBus [0x88]) [] sampleTime 0x88 (by decide) (by rfl)).2.2.1,
      (setTime_clears_osf (scriptedBus [0x88]) [] sampleTime 0x88 (by decide)
        (by rfl)).2.2.2.1⟩,
    by decide⟩

/-- C18: run of `DS3231M_setTime` on a bus whose three calls return the
statuses 0, 0 and 256.  The final write reports the 32-bit status 256, and the
driver, which keeps the status in an eight-bit local, returns 0. -/
theorem setTime_truncates_status :
    ((scriptedBus [0x88]).master_write [256]
      ⟨0x68, 0x0F, 1, [0x08], 1⟩).1 = 256 ∧
    (DS3231M_setTime (scriptedBus [0x88]) [0, 0, 256] sampleTime).result = 0 := by
  constructor <;> decide

/-! ## Frame of the timestamp conversion -/

/-- C12: for every timestamp and every prior content of the output record,
`convert_unixms_to_dateTime` leaves day of week and device address as they
were; the six fields it writes do not depend on the prior content. -/
theorem convert_unixms_to_dateTime_frame (ts : Nat) (out other : ds3231m_t) :
    (convert_unixms_to_dateTime ts out).day_of_week = out.day_of_week ∧
    (convert_unixms_to_dateTime ts out).address = out.address ∧
    SameDateTime (convert_unixms_to_dateTime ts out)
      (convert_unixms_to_dateTime ts other) := by
  rw [convert_unixms_to_dateTime_eq ts out, convert_unixms_to_dateTime_eq ts other]
  exact ⟨rfl, rfl, rfl, rfl, rfl, rfl, rfl, rfl⟩

/-! ## BCD digits -/

theorem low_nibble (b : Nat) : b &&& 0x0F = b % 16 :=
  Nat.and_pow_two_sub_one_eq_mod b 4

/-- C13: for `v` in 0..99, `bin2bcd v` is `16 * (v / 10) + v % 10`, the tens
digit in the high nibble and the ones digit in the low nibble; and for every
byte `b` (in particular one whose nibbles are both decimal digits),
`bcd2bin b` is `10 * (b >> 4) + (b AND 0x0F)`. -/
theorem bcd_digits (v b : Nat) (hv : v ≤ 99) (hb : b < 256) :
    bin2bcd v = 16 * (v / 10) + v % 10 ∧
    (bin2bcd v) >>> 4 = v / 10 ∧ (bin2bcd v) &&& 0x0F = v % 10 ∧
    bcd2bin b = 10 * (b >>> 4) + (b &&& 0x0F) := by
  have hs : ∀ n : Nat, n >>> 4 = n / 16 := by
    intro n
    rw [Nat.shiftRight_eq_div_pow]
  have h1 : bin2bcd v = 16 * (v / 10) + v % 10 := by
    rw [bin2bcd_of_le v hv]
    omega
  refine ⟨h1, ?_, ?_, ?_⟩
  · rw [h1, hs]
    omega
  · rw [h1, low_nibble]
    omega
  · rw [bcd2bin_of_lt b hb, hs, low_nibble]
    omega

theorem bcd_digits_witness :
    bin2bcd 59 = 16 * (59 / 10) + 59 % 10 ∧
    (bin2bcd 59) >>> 4 = 59 / 10 ∧ (bin2bcd 59) &&& 0x0F = 59 % 10 ∧
    bcd2bin 0x59 = 10 * (0x59 >>> 4) + (0x59 &&& 0x0F) :=
  bcd_digits 59 0x59 (by decide) (by decide)

/-! ## The origin of the timestamp -/

/-- C14: the origin is 1970-01-01 00:00:00.  The timestamp 0 converts to year
1970, month 1, date 1, hour 0, minute 0, second 0, and that date-time converts
to 0, for every device address, day of week and prior output record. -/
theorem convert_origin (a w : Nat) (out : ds3231m_t) :
    SameDateTime (convert_unixms_to_dateTime 0 out) ⟨a, 0, 0, 0, w, 1, 1, 1970⟩ ∧
    convert_dateTime_to_unixms ⟨a, 0, 0, 0, w, 1, 1, 1970⟩ = 0 := by
  refine ⟨?_, ?_⟩
  · exact ⟨by rfl, by rfl, by rfl, by rfl, by rfl, by rfl⟩
  · simp only [convert_dateTime_to_unixms, toU8, toU16, toU64]
    decide

/-! ## Temperature decoding -/

theorem sign_bit_clear_iff (msb : Nat) (h : msb < 256) : (msb &&& 0x80 = 0) ↔ msb < 128 := by
  interval_cases msb <;> decide

theorem temperature_field (msb lsb : Nat) (hl : lsb < 256) :
    (msb <<< 2) ||| (lsb >>> 6) = 4 * msb + lsb / 64 := by
  have ht : lsb / 64 < 2 ^ 2 := by omega
  have hs : lsb >>> 6 = lsb / 64 := by
    rw [Nat.shiftRight_eq_div_pow]
  rw [hs, Nat.shiftLeft_eq, Nat.mul_comm, ← Nat.mul_add_lt_is_or ht msb]

theorem temperature_eq_raw (msb lsb : Nat) (hm : msb < 256) (hl : lsb < 256) :
    convert_temperature_unsigned_to_float msb lsb = (temperature_raw msb lsb : ℚ) * 0.25 := by
  unfold convert_temperature_unsigned_to_float temperature_raw
  dsimp only
  rw [temperature_field msb lsb hl]
  have hs : lsb >>> 6 = lsb / 64 := by
    rw [Nat.shiftRight_eq_div_pow]
  rw [hs]
  have ht : lsb / 64 < 4 := by omega
  generalize lsb / 64 = t at ht ⊢
  by_cases h : msb < 128
  · have h1 : msb &&& 0x80 = 0 := (sign_bit_clear_iff msb hm).2 h
    have h2 : 4 * msb + t < 512 := by omega
    rw [if_pos h1, if_pos h2]
    push_cast
    ring
  · have h1 : ¬ msb &&& 0x80 = 0 := fun hc => h ((sign_bit_clear_iff msb hm).1 hc)
    have h2 : ¬ 4 * msb + t < 512 := by omega
    rw [if_neg h1, if_neg h2]
    have hle : msb ≤ 256 := by omega
    push_cast [Nat.cast_sub hle]
    ring

theorem temperature_raw_cast (a b : Nat) (r : Int) (h : temperature_raw a b = r) :
    ((temperature_raw a b : Int) : ℚ) = (r : ℚ) := by
  rw [h]

theorem temperature_examples :
    convert_temperature_unsigned_to_float 0x19 0x40 = 25.25 ∧
    convert_temperature_unsigned_to_float 0x00 0x00 = 0 ∧
    convert_temperature_unsigned_to_float 0xE6 0xC0 = -25.25 ∧
    convert_temperature_unsigned_to_float 0xFF 0xC0 = -0.25 ∧
    convert_temperature_unsigned_to_float 0x80 0x00 = -128 := by
  refine ⟨?_, ?_, ?_, ?_, ?_⟩
  · rw [temperature_eq_raw _ _ (by decide) (by decide),
      temperature_raw_cast 0x19 0x40 101 (by decide)]
    norm_num
  · rw [temperature_eq_raw _ _ (by decide) (by decide),
      temperature_raw_cast 0x00 0x00 0 (by decide)]
    norm_num
  · rw [temperature_eq_raw _ _ (by decide) (by decide),
      temperature_raw_cast 0xE6 0xC0 (-101) (by decide)]
    norm_num
  · rw [temperature_eq_raw _ _ (by decide) (by decide),
      temperature_raw_cast 0xFF 0xC0 (-1) (by decide)]
    norm_num
  · rw [temperature_eq_raw _ _ (by decide) (by decide),
      temperature_raw_cast 0x80 0x00 (-512) (by decide)]
    norm_num

/-- C15: for every register pair (`msb`, `lsb`) the temperature decoder returns
`raw * 0.25`, where `raw` is the 10-bit two's-complement integer formed from
`msb` and the top two bits of `lsb`; the five worked pairs give 25.25, 0,
-25.25, -0.25 and -128. -/
theorem temperature_decodes_raw_quarters (msb lsb : Nat) (hm : msb < 256) (hl : lsb < 256) :
    convert_temperature_unsigned_to_float msb lsb = (temperature_raw msb lsb : ℚ) * 0.25 ∧
    convert_temperature_unsigned_to_float 0x19 0x40 = 25.25 ∧
    convert_temperature_unsigned_to_float 0x00 0x00 = 0 ∧
    convert_temperature_unsigned_to_float 0xE6 0xC0 = -25.25 ∧
    convert_temperature_unsigned_to_float 0xFF 0xC0 = -0.25 ∧
    convert_temperature_unsigned_to_float 0x80 0x00 = -128 :=
  ⟨temperature_eq_raw msb lsb hm hl, temperature_examples⟩

theorem temperature_decodes_raw_quarters_witness :
    convert_temperature_unsigned_to_float 0xE6 0xC0
      = (temperature_raw 0xE6 0xC0 : ℚ) * 0.25 ∧
    convert_temperature_unsigned_to_float 0x19 0x40 = 25.25 ∧
    convert_temperature_unsigned_to_float 0x00 0x00 = 0 ∧
    convert_temperature_unsigned_to_float 0xE6 0xC0 = -25.25 ∧
    convert_temperature_unsigned_to_float 0xFF 0xC0 = -0.25 ∧
    convert_temperature_unsigned_to_float 0x80 0x00 = -128 :=
  temperature_decodes_raw_quarters 0xE6 0xC0 (by decide) (by decide)

/-! ## Date-times before the origin -/

theorem wrap_before_epoch (S t : Nat) (hS : S < 719561) (ht : t ≤ 86399) :
    ((((S + (2 ^ 64 - 719561)) % 2 ^ 64 * 86400) % 2 ^ 64 + t) % 2 ^ 64 * 1000) % 2 ^ 64
      = 2 ^ 64 - 1000 * (86400 * (719561 - S) - t) := by
  have h1 : (S + (2 ^ 64 - 719561)) % 2 ^ 64 = 2 ^ 64 - (719561 - S) := by omega
  rw [h1]
  have h2 : ((2 ^ 64 - (719561 - S)) * 86400) % 2 ^ 64 = 2 ^ 64 - 86400 * (719561 - S) := by
    omega
  rw [h2]
  have h3 : (2 ^ 64 - 86400 * (719561 - S) + t) % 2 ^ 64
      = 2 ^ 64 - (86400 * (719561 - S) - t) := by omega
  rw [h3]
  omega

theorem daySum_before_epoch (y m d : Nat) (hy : y ≤ 1969) (hm1 : 3 ≤ m) (hm2 : m ≤ 14)
    (hy' : y = 1969 → m ≤ 12) (hd : d ≤ 31) :
    365 * y + y / 4 - y / 100 + y / 400 + (30 * m + 3 * (m + 1) / 5 + d) < 719561 := by
  omega

theorem shifted_before_epoch (y m d t : Nat) (hy : y ≤ 1969) (hm1 : 3 ≤ m) (hm2 : m ≤ 14)
    (hlast : y = 1969 → m ≤ 12) (hd : d ≤ 31) (ht : t ≤ 86399) :
    (((((((toU64 (365 * (y : Int) + ((y / 4 : Nat) : Int)
          - ((y / 100 : Nat) : Int) + ((y / 400 : Nat) : Int))
        + toU64 (30 * (m : Int) + ((3 * (m + 1) / 5 : Nat) : Int) + (d : Int))) % 2 ^ 64
        + (2 ^ 64 - 719561)) % 2 ^ 64 * 86400) % 2 ^ 64 + t) % 2 ^ 64
        * 1000) % 2 ^ 64 : Nat) : Int)
      = 2 ^ 64 + 1000 * (86400 * (365 * (y : Int) + (y : Int) / 4 - (y : Int) / 100
        + (y : Int) / 400 + 30 * (m : Int) + (3 * ((m : Int) + 1)) / 5 + (d : Int) - 719561)
        + (t : Int)) ∧
    1000 * (86400 * (365 * (y : Int) + (y : Int) / 4 - (y : Int) / 100
        + (y : Int) / 400 + 30 * (m : Int) + (3 * ((m : Int) + 1)) / 5 + (d : Int) - 719561)
        + (t : Int)) < 0 ∧
    0 < 2 ^ 64 + 1000 * (86400 * (365 * (y : Int) + (y : Int) / 4 - (y : Int) / 100
        + (y : Int) / 400 + 30 * (m : Int) + (3 * ((m : Int) + 1)) / 5 + (d : Int) - 719561)
        + (t : Int)) := by
  have hS := daySum_before_epoch y m d hy hm1 hm2 hlast hd
  have hA : toU64 (365 * (y : Int) + ((y / 4 : Nat) : Int)
      - ((y / 100 : Nat) : Int) + ((y / 400 : Nat) : Int))
      = 365 * y + y / 4 - y / 100 + y / 400 :=
    toU64_of_nat _ _ (by omega) (by omega)
  have hB : toU64 (30 * (m : Int) + ((3 * (m + 1) / 5 : Nat) : Int) + (d : Int))
      = 30 * m + 3 * (m + 1) / 5 + d :=
    toU64_of_nat _ _ (by omega) (by omega)
  have hsum : (365 * y + y / 4 - y / 100 + y / 400 + (30 * m + 3 * (m + 1) / 5 + d))
      % 2 ^ 64 = 365 * y + y / 4 - y / 100 + y / 400 + (30 * m + 3 * (m + 1) / 5 + d) :=
    Nat.mod_eq_of_lt (by omega)
  rw [hA, hB, hsum, wrap_before_epoch _ _ hS ht]
  have hI : 365 * (y : Int) + (y : Int) / 4 - (y : Int) / 100
      + (y : Int) / 400 + 30 * (m : Int) + (3 * ((m : Int) + 1)) / 5 + (d : Int)
      = ((365 * y + y / 4 - y / 100 + y / 400 + (30 * m + 3 * (m + 1) / 5 + d) : Nat) : Int) := by
    omega
  rw [hI]
  generalize 365 * y + y / 4 - y / 100 + y / 400 + (30 * m + 3 * (m + 1) / 5 + d) = S at hS
  omega

theorem convert_wraps_before_epoch (ds : ds3231m_t) (hy1 : 1 ≤ ds.year) (hy2 : ds.year ≤ 1969)
    (hm1 : 1 ≤ ds.month) (hm2 : ds.month ≤ 12) (hd1 : 1 ≤ ds.date) (hd2 : ds.date ≤ 31)
    (hh : ds.hour ≤ 23) (hmi : ds.minute ≤ 59) (hs : ds.second ≤ 59) :
    (convert_dateTime_to_unixms ds : Int) = 2 ^ 64 + spec_unixms ds ∧
    spec_unixms ds < 0 ∧ convert_dateTime_to_unixms ds ≠ 0 := by
  obtain ⟨a, s, mi, h, w, d, m, y⟩ := ds
  simp only at *
  have ht : toU64 (3600 * (h : Int) + 60 * (mi : Int) + (s : Int)) = 3600 * h + 60 * mi + s :=
    toU64_of_nat _ _ (by push_cast; ring) (by omega)
  have htc : ((3600 * h + 60 * mi + s : Nat) : Int) = 3600 * (h : Int) + 60 * (mi : Int) + (s : Int) := by
    push_cast; ring
  have hne : ∀ n : Nat, ∀ z : Int, (n : Int) = 2 ^ 64 + z → 0 < 2 ^ 64 + z → n ≠ 0 := by
    intro n z h1 h2 h0
    subst h0
    omega
  unfold convert_dateTime_to_unixms spec_unixms spec_days
  simp only [ht]
  by_cases hm : m ≤ 2
  · have hm' : (m : Int) ≤ 2 := by omega
    have hm8 : toU8 ((m : Int) + 12) = m + 12 := by unfold toU8; omega
    have hy16 : toU16 ((y : Int) - 1) = y - 1 := by unfold toU16; omega
    simp only [if_pos hm, if_pos hm', hm8, hy16]
    obtain ⟨k1, k2, k3⟩ := shifted_before_epoch (y - 1) (m + 12) d (3600 * h + 60 * mi + s)
      (by omega) (by omega) (by omega) (by omega) hd2 (by omega)
    have hc : ((y - 1 : Nat) : Int) = (y : Int) - 1 := by omega
    have hc2 : ((m + 12 : Nat) : Int) = (m : Int) + 12 := by omega
    rw [hc, hc2, htc] at k1 k2 k3
    rw [hc, hc2]
    have e3 := hne _ _ k1 k3
    generalize 365 * ((y : Int) - 1) + ((y : Int) - 1) / 4 - ((y : Int) - 1) / 100
      + ((y : Int) - 1) / 400 + 30 * ((m : Int) + 12) + 3 * ((m : Int) + 12 + 1) / 5
      + (d : Int) - 719561 = Dd at k1 k2 k3 ⊢
    refine ⟨?_, ?_, e3⟩
    · rw [k1]
      ring
    · clear k1 k3 e3 hne ht htc
      omega
  · have hm' : ¬ (m : Int) ≤ 2 := by omega
    simp only [if_neg hm, if_neg hm']
    obtain ⟨k1, k2, k3⟩ := shifted_before_epoch y m d (3600 * h + 60 * mi + s)
      (by omega) (by omega) (by omega) (by omega) hd2 (by omega)
    rw [htc] at k1 k2 k3
    have e3 := hne _ _ k1 k3
    generalize 365 * (y : Int) + (y : Int) / 4 - (y : Int) / 100
      + (y : Int) / 400 + 30 * (m : Int) + 3 * ((m : Int) + 1) / 5
      + (d : Int) - 719561 = Dd at k1 k2 k3 ⊢
    refine ⟨?_, ?_, e3⟩
    · rw [k1]
      ring
    · clear k1 k3 e3 hne ht htc
      omega

/-- C17, as the claim states it, fails: 1969-12-31 23:59:59 lies before the
origin, and `convert_dateTime_to_unixms` returns 18446744073709550616, which is
`2 ^ 64 - 1000`, not 0. -/
theorem convert_before_epoch_not_clamped :
    convert_dateTime_to_unixms lastBeforeEpoch = 18446744073709550616 ∧
    convert_dateTime_to_unixms lastBeforeEpoch ≠ 0 := by
  constructor <;> decide

/-- C17, amended: for year 1..1969, month 1..12, date 1..31, hour 0..23, minute
0..59 and second 0..59 (all before 1970-01-01 00:00:00) the would-be-negative
result is not clamped.  `convert_dateTime_to_unixms` returns `2 ^ 64 + t`, where
`t < 0` is the specification's millisecond count over the integers: the
negative count reduced modulo `2 ^ 64`, which is never 0. -/
theorem convert_before_epoch_wraps (ds : ds3231m_t) (hy1 : 1 ≤ ds.year) (hy2 : ds.year ≤ 1969)
    (hm1 : 1 ≤ ds.month) (hm2 : ds.month ≤ 12) (hd1 : 1 ≤ ds.date) (hd2 : ds.date ≤ 31)
    (hh : ds.hour ≤ 23) (hmi : ds.minute ≤ 59) (hs : ds.second ≤ 59) :
    (convert_dateTime_to_unixms ds : Int) = 2 ^ 64 + spec_unixms ds ∧
    spec_unixms ds < 0 ∧ convert_dateTime_to_unixms ds ≠ 0 :=
  convert_wraps_before_epoch ds hy1 hy2 hm1 hm2 hd1 hd2 hh hmi hs

theorem convert_before_epoch_wraps_witness :
    (convert_dateTime_to_unixms lastBeforeEpoch : Int) = 2 ^ 64 + spec_unixms lastBeforeEpoch ∧
    spec_unixms lastBeforeEpoch < 0 ∧ convert_dateTime_to_unixms lastBeforeEpoch ≠ 0 :=
  convert_before_epoch_wraps lastBeforeEpoch (by decide) (by decide) (by decide)
    (by decide) (by decide) (by decide) (by decide) (by decide) (by decide)

/-! ## The calendar from 1970 to 2099 -/

theorem century_terms (y : Nat) (h1 : 1969 ≤ y) (h2 : y ≤ 2099) :
    y / 100 = 19 ∧ y / 400 = 4 ∨ y / 100 = 20 ∧ y / 400 = 5 := by
  by_cases h : y ≤ 1999
  · left; constructor <;> omega
  · right; constructor <;> omega

theorem daySum_since_epoch (y m d : Nat) (hy1 : 1969 ≤ y) (hy2 : y ≤ 2099)
    (hm1 : 3 ≤ m) (hfirst : y = 1969 → 13 ≤ m) (hd1 : 1 ≤ d) :
    365 * y + y / 4 - y / 100 + y / 400 + 30 * m + 3 * (m + 1) / 5 + d - 719561 + 719576
      = 365 * y + y / 4 + (30 * m + 3 * (m + 1) / 5 + d) := by
  rcases century_terms y hy1 hy2 with ⟨h1, h2⟩ | ⟨h1, h2⟩ <;> rw [h1, h2]
  · by_cases h : y = 1969
    · have := hfirst h
      subst h
      omega
    · omega
  · omega

theorem dateFromDays_shifted_since_epoch (y m d : Nat) (hy1 : 1969 ≤ y) (hy2 : y ≤ 2099)
    (hm1 : 3 ≤ m) (hm2 : m ≤ 14) (hd1 : 1 ≤ d)
    (hd2 : d ≤ 31) (hd30 : m = 4 ∨ m = 6 ∨ m = 9 ∨ m = 11 → d ≤ 30)
    (hd29 : m = 14 → d ≤ 29) (hd28 : m = 14 → (y + 1) % 4 ≠ 0 → d ≤ 28)
    (hfirst : y = 1969 → 13 ≤ m) (hlast : y = 2099 → m ≤ 12) :
    dateFromDays (365 * y + y / 4 - y / 100 + y / 400 + 30 * m + 3 * (m + 1) / 5 + d - 719561)
      = (if m ≤ 12 then y else y + 1, if m ≤ 12 then m else m - 12, d) := by
  have hsum := daySum_since_epoch y m d hy1 hy2 hm1 hfirst hd1
  have hM1 : 93 ≤ 30 * m + 3 * (m + 1) / 5 + d := by omega
  have hM2 : 30 * m + 3 * (m + 1) / 5 + d ≤ 457 ∨
      (30 * m + 3 * (m + 1) / 5 + d = 458 ∧ y % 4 = 3) := by
    by_cases h14 : m = 14
    · subst h14
      have := hd29 rfl
      by_cases hl : (y + 1) % 4 = 0
      · omega
      · have := hd28 rfl hl
        omega
    · left; omega
  have hM3 : 30 * m + 3 * (m + 1) / 5 + d ≤ 458 := by omega
  generalize 365 * y + y / 4 - y / 100 + y / 400 + 30 * m + 3 * (m + 1) / 5 + d - 719561 = D
    at hsum ⊢
  have hDhi : D ≤ 47540 := by
    by_cases h : y = 2099
    · have := hlast h
      omega
    · omega
  have hb' : D + 2442125
      = 365 * y + y / 4 + (30 * m + 3 * (m + 1) / 5 + d) + 1722549 := by omega
  unfold dateFromDays
  dsimp only
  rw [inv_b _ _ hDhi (inv_a _ hDhi), hb', inv_c y _ hy2 hM1 hM2, inv_d y _ hy2 hM3,
    inv_e m d hm1 hm2 hd1 hd2 hd30 hd29, inv_f m d hm1 hm2 hd2]
  by_cases hm : m ≤ 12
  · have hm' : m + 1 ≤ 13 := by omega
    simp only [if_pos hm, if_pos hm']
    refine Prod.ext ?_ (Prod.ext ?_ ?_) <;> simp only <;> omega
  · have hm' : ¬ m + 1 ≤ 13 := by omega
    simp only [if_neg hm, if_neg hm']
    refine Prod.ext ?_ (Prod.ext ?_ ?_) <;> simp only <;> omega

theorem daysInMonth_feb_leap (y : Nat) (h1 : 1970 ≤ y) (h2 : y ≤ 2099) (h : y % 4 = 0) :
    daysInMonth y 2 = 29 := by
  unfold daysInMonth isLeapYear
  have h3 : y % 100 ≠ 0 ∨ y % 400 = 0 := by omega
  rcases h3 with h3 | h3 <;> simp [h, h3]

theorem daysInMonth_thirtyone (y m : Nat) (h : m = 1 ∨ m = 3 ∨ m = 5 ∨ m = 7 ∨ m = 8 ∨ m = 10 ∨ m = 12) :
    daysInMonth y m = 31 := by
  unfold daysInMonth
  have h2 : ¬ m = 2 := by omega
  have h3 : ¬ (m = 4 ∨ m = 6 ∨ m = 9 ∨ m = 11) := by omega
  simp only [if_neg h2, if_neg h3]

theorem dateFromDays_dayNumber_since_epoch (y m d : Nat) (hy1 : 1970 ≤ y) (hy2 : y ≤ 2099)
    (hm1 : 1 ≤ m) (hm2 : m ≤ 12) (hd1 : 1 ≤ d) (hd2 : d ≤ daysInMonth y m) :
    dateFromDays (dayNumber y m d) = (y, m, d) := by
  have h31 := daysInMonth_le y m
  unfold dayNumber
  by_cases hm : m ≤ 2
  · simp only [if_pos hm]
    rw [dateFromDays_shifted_since_epoch (y - 1) (m + 12) d (by omega) (by omega) (by omega)
      (by omega) hd1 (by omega) (by omega)
      (by intro h
          have h2 : m = 2 := by omega
          subst h2
          have := daysInMonth_feb_le y
          omega)
      (by intro h hl
          have h2 : m = 2 := by omega
          subst h2
          have := daysInMonth_feb_common y (by omega)
          omega)
      (by omega) (by omega)]
    have hn : ¬ m + 12 ≤ 12 := by omega
    simp only [if_neg hn]
    refine Prod.ext ?_ (Prod.ext ?_ ?_) <;> simp only <;> omega
  · simp only [if_neg hm]
    rw [dateFromDays_shifted_since_epoch y m d (by omega) hy2 (by omega) (by omega) hd1 (by omega)
      (by intro h
          have := daysInMonth_thirty y m h
          omega)
      (by omega) (by omega) (by omega) (by omega)]
    have hn : m ≤ 12 := hm2
    simp only [if_pos hn]

theorem dayNumber_closed (y m d : Nat) (hy1 : 1970 ≤ y) (hy2 : y ≤ 2099)
    (hm1 : 1 ≤ m) (hm2 : m ≤ 12) (hd1 : 1 ≤ d) :
    dayNumber y m d + 719576 =
      if m ≤ 2 then 365 * (y - 1) + (y - 1) / 4 + (30 * (m + 12) + 3 * (m + 12 + 1) / 5 + d)
      else 365 * y + y / 4 + (30 * m + 3 * (m + 1) / 5 + d) := by
  unfold dayNumber
  by_cases hm : m ≤ 2
  · simp only [if_pos hm]
    exact daySum_since_epoch (y - 1) (m + 12) d (by omega) (by omega) (by omega) (by omega) hd1
  · simp only [if_neg hm]
    exact daySum_since_epoch y m d (by omega) (by omega) (by omega) (by omega) hd1

theorem convert_dateTime_to_unixms_eq_since_epoch (ds : ds3231m_t)
    (hy1 : 1970 ≤ ds.year) (hy2 : ds.year ≤ 2099)
    (hm1 : 1 ≤ ds.month) (hm2 : ds.month ≤ 12) (hd1 : 1 ≤ ds.date) (hd2 : ds.date ≤ 31)
    (hh : ds.hour ≤ 23) (hmi : ds.minute ≤ 59) (hs : ds.second ≤ 59) :
    convert_dateTime_to_unixms ds =
      1000 * (86400 * dayNumber ds.year ds.month ds.date + 3600 * ds.hour + 60 * ds.minute
        + ds.second) := by
  obtain ⟨a, s, mi, h, w, d, m, y⟩ := ds
  simp only at *
  have hc := dayNumber_closed y m d hy1 hy2 hm1 hm2 hd1
  have ht : toU64 (3600 * (h : Int) + 60 * (mi : Int) + (s : Int)) = 3600 * h + 60 * mi + s :=
    toU64_of_nat _ _ (by push_cast; ring) (by omega)
  generalize dayNumber y m d = D at hc ⊢
  unfold convert_dateTime_to_unixms
  simp only [ht]
  by_cases hm : m ≤ 2
  · simp only [if_pos hm] at hc ⊢
    have hm' : toU8 ((m : Int) + 12) = m + 12 := by unfold toU8; omega
    have hy' : toU16 ((y : Int) - 1) = y - 1 := by unfold toU16; omega
    rw [hm', hy']
    rcases century_terms (y - 1) (by omega) (by omega) with ⟨h1, h2⟩ | ⟨h1, h2⟩ <;>
    · have hA : toU64 (365 * ((y - 1 : Nat) : Int) + (((y - 1) / 4 : Nat) : Int)
          - (((y - 1) / 100 : Nat) : Int) + (((y - 1) / 400 : Nat) : Int))
          = 365 * (y - 1) + (y - 1) / 4 - 15 :=
        toU64_of_nat _ _ (by omega) (by omega)
      have hB : toU64 (30 * ((m + 12 : Nat) : Int) + ((3 * (m + 12 + 1) / 5 : Nat) : Int)
          + (d : Int)) = 30 * (m + 12) + 3 * (m + 12 + 1) / 5 + d :=
        toU64_of_nat _ _ (by omega) (by omega)
      rw [hA, hB]
      have hD : D ≤ 47500 := by omega
      omega
  · simp only [if_neg hm] at hc ⊢
    rcases century_terms y (by omega) (by omega) with ⟨h1, h2⟩ | ⟨h1, h2⟩ <;>
    · have hA : toU64 (365 * (y : Int) + ((y / 4 : Nat) : Int)
          - ((y / 100 : Nat) : Int) + ((y / 400 : Nat) : Int))
          = 365 * y + y / 4 - 15 :=
        toU64_of_nat _ _ (by omega) (by omega)
      have hB : toU64 (30 * (m : Int) + ((3 * (m + 1) / 5 : Nat) : Int) + (d : Int))
          = 30 * m + 3 * (m + 1) / 5 + d :=
        toU64_of_nat _ _ (by omega) (by omega)
      rw [hA, hB]
      have hD : D ≤ 47500 := by omega
      omega

theorem daysInMonth_table (y m : Nat) (hy1 : 1970 ≤ y) (hy2 : y ≤ 2099)
    (hm1 : 1 ≤ m) (hm2 : m ≤ 12) :
    daysInMonth y m =
      if m = 2 then (if y % 4 = 0 then 29 else 28)
      else if m = 4 ∨ m = 6 ∨ m = 9 ∨ m = 11 then 30 else 31 := by
  by_cases h2 : m = 2
  · subst h2
    simp only [if_true]
    by_cases hl : y % 4 = 0
    · rw [if_pos hl, daysInMonth_feb_leap y hy1 hy2 hl]
    · rw [if_neg hl, daysInMonth_feb_common y hl]
  · unfold daysInMonth
    simp only [if_neg h2]

theorem dayNumber_janfeb (y m d : Nat) (hy1 : 1970 ≤ y) (hy2 : y ≤ 2099)
    (hm1 : 1 ≤ m) (hm2 : m ≤ 2) (hd1 : 1 ≤ d) :
    dayNumber y m d + 719576 =
      365 * (y - 1) + (y - 1) / 4 + (30 * (m + 12) + 3 * (m + 12 + 1) / 5 + d) := by
  have h := dayNumber_closed y m d hy1 hy2 hm1 (by omega) hd1
  rw [if_pos hm2] at h
  exact h

theorem dayNumber_march (y m d : Nat) (hy1 : 1970 ≤ y) (hy2 : y ≤ 2099)
    (hm1 : 3 ≤ m) (hm2 : m ≤ 12) (hd1 : 1 ≤ d) :
    dayNumber y m d + 719576 = 365 * y + y / 4 + (30 * m + 3 * (m + 1) / 5 + d) := by
  have h := dayNumber_closed y m d hy1 hy2 (by omega) hm2 hd1
  rw [if_neg (by omega : ¬ m ≤ 2)] at h
  exact h

theorem daysInMonth_pos (y m : Nat) : 1 ≤ daysInMonth y m := by
  unfold daysInMonth
  split
  · split <;> omega
  · split <;> omega

theorem dayNumber_next_month (y m : Nat) (hy1 : 1970 ≤ y) (hy2 : y ≤ 2099)
    (hm1 : 1 ≤ m) (hm2 : m < 12) :
    dayNumber y (m + 1) 1 = dayNumber y m (daysInMonth y m) + 1 := by
  have hpos := daysInMonth_pos y m
  by_cases h1 : m = 1
  · subst h1
    have hdim := daysInMonth_thirtyone y 1 (by omega)
    have ha := dayNumber_janfeb y 1 (daysInMonth y 1) hy1 hy2 (by omega) (by omega) hpos
    have hb := dayNumber_janfeb y (1 + 1) 1 hy1 hy2 (by omega) (by omega) (by omega)
    omega
  · by_cases h2 : m = 2
    · subst h2
      have ha := dayNumber_janfeb y 2 (daysInMonth y 2) hy1 hy2 (by omega) (by omega) hpos
      have hb := dayNumber_march y (2 + 1) 1 hy1 hy2 (by omega) (by omega) (by omega)
      by_cases hl : y % 4 = 0
      · have hdim := daysInMonth_feb_leap y hy1 hy2 hl
        omega
      · have hdim := daysInMonth_feb_common y hl
        omega
    · have ha := dayNumber_march y m (daysInMonth y m) hy1 hy2 (by omega) (by omega) hpos
      have hb := dayNumber_march y (m + 1) 1 hy1 hy2 (by omega) (by omega) (by omega)
      by_cases h30 : m = 4 ∨ m = 6 ∨ m = 9 ∨ m = 11
      · have hdim := daysInMonth_thirty y m h30
        omega
      · have hdim := daysInMonth_thirtyone y m (by omega)
        have hm3 : 3 ≤ m := by omega
        clear h1 h2 hm1
        interval_cases m <;> omega

theorem dayNumber_next_year (y : Nat) (hy1 : 1970 ≤ y) (hy2 : y < 2099) :
    dayNumber (y + 1) 1 1 = dayNumber y 12 31 + 1 := by
  have ha := dayNumber_march y 12 31 hy1 (by omega) (by omega) (by omega) (by omega)
  have hb := dayNumber_janfeb (y + 1) 1 1 (by omega) (by omega) (by omega) (by omega) (by omega)
  have hy : y + 1 - 1 = y := by omega
  rw [hy] at hb
  omega

theorem dayNumber_next_date (y m d : Nat) (hy1 : 1970 ≤ y) (hy2 : y ≤ 2099)
    (hm1 : 1 ≤ m) (hm2 : m ≤ 12) (hd1 : 1 ≤ d) :
    dayNumber y m (d + 1) = dayNumber y m d + 1 := by
  have ha := dayNumber_closed y m d hy1 hy2 hm1 hm2 hd1
  have hb := dayNumber_closed y m (d + 1) hy1 hy2 hm1 hm2 (by omega)
  by_cases hm : m ≤ 2
  · rw [if_pos hm] at ha hb
    omega
  · rw [if_neg hm] at ha hb
    omega

theorem nextDay_dayNumber (ds : ds3231m_t) (h : ValidSinceEpoch ds)
    (hlast : ¬ (ds.year = 2099 ∧ ds.month = 12 ∧ ds.date = 31)) :
    ValidSinceEpoch (nextDay ds) ∧
    dayNumber (nextDay ds).year (nextDay ds).month (nextDay ds).date
      = dayNumber ds.year ds.month ds.date + 1 := by
  obtain ⟨hy1, hy2, hm1, hm2, hd1, hd2, hh, hmi, hs⟩ := h
  by_cases h1 : ds.date < daysInMonth ds.year ds.month
  · have hn : nextDay ds = { ds with date := ds.date + 1 } := by
      unfold nextDay
      rw [if_pos h1]
    rw [hn]
    exact ⟨⟨hy1, hy2, hm1, hm2, Nat.le_add_left 1 ds.date, h1, hh, hmi, hs⟩,
      dayNumber_next_date ds.year ds.month ds.date hy1 hy2 hm1 hm2 hd1⟩
  · have hd : ds.date = daysInMonth ds.year ds.month := by omega
    by_cases h2 : ds.month < 12
    · have hn : nextDay ds = { ds with date := 1, month := ds.month + 1 } := by
        unfold nextDay
        rw [if_neg h1, if_pos h2]
      rw [hn]
      refine ⟨⟨hy1, hy2, Nat.le_add_left 1 ds.month, h2, Nat.le_refl 1,
        daysInMonth_pos ds.year (ds.month + 1), hh, hmi, hs⟩, ?_⟩
      show dayNumber ds.year (ds.month + 1) 1 = dayNumber ds.year ds.month ds.date + 1
      rw [hd]
      exact dayNumber_next_month ds.year ds.month hy1 hy2 hm1 h2
    · have hn : nextDay ds = { ds with date := 1, month := 1, year := ds.year + 1 } := by
        unfold nextDay
        rw [if_neg h1, if_neg h2]
      have hm12 : ds.month = 12 := by omega
      have hd31 : ds.date = 31 := by
        rw [hd, hm12]
        exact daysInMonth_thirtyone ds.year 12 (by omega)
      have hy : ds.year < 2099 := by
        have : ds.year ≠ 2099 := fun hy => hlast ⟨hy, hm12, hd31⟩
        omega
      rw [hn]
      refine ⟨⟨Nat.le_succ_of_le hy1, hy, Nat.le_refl 1, (by show (1 : Nat) ≤ 12; omega), Nat.le_refl 1,
        daysInMonth_pos (ds.year + 1) 1, hh, hmi, hs⟩, ?_⟩
      show dayNumber (ds.year + 1) 1 1 = dayNumber ds.year ds.month ds.date + 1
      rw [hm12, hd31]
      exact dayNumber_next_year ds.year hy1 hy

theorem nextDay_time (ds : ds3231m_t) :
    (nextDay ds).hour = ds.hour ∧ (nextDay ds).minute = ds.minute ∧
    (nextDay ds).second = ds.second := by
  unfold nextDay
  split
  · exact ⟨rfl, rfl, rfl⟩
  · split
    · exact ⟨rfl, rfl, rfl⟩
    · exact ⟨rfl, rfl, rfl⟩

theorem dayNumber_last : dayNumber 2099 12 31 = 47481 := by
  unfold dayNumber
  decide

theorem exists_date_of_dayNumber (n : Nat) (hn : n ≤ 47481) :
    ∃ ds : ds3231m_t, ValidSinceEpoch ds ∧ dayNumber ds.year ds.month ds.date = n := by
  induction n with
  | zero =>
    refine ⟨⟨0, 0, 0, 0, 0, 1, 1, 1970⟩, by decide, ?_⟩
    unfold dayNumber
    decide
  | succ k ih =>
    obtain ⟨ds, hv, hd⟩ := ih (by omega)
    have hlast : ¬ (ds.year = 2099 ∧ ds.month = 12 ∧ ds.date = 31) := by
      rintro ⟨a, b, c⟩
      rw [a, b, c, dayNumber_last] at hd
      omega
    obtain ⟨hv', hd'⟩ := nextDay_dayNumber ds hv hlast
    exact ⟨nextDay ds, hv', by rw [hd', hd]⟩

theorem dayNumber_before_2000 (y m d : Nat) (hy1 : 1970 ≤ y) (hy2 : y ≤ 1999)
    (hm1 : 1 ≤ m) (hm2 : m ≤ 12) (hd1 : 1 ≤ d) (hd2 : d ≤ 31) :
    dayNumber y m d ≤ 10956 := by
  have hc := dayNumber_closed y m d hy1 (by omega) hm1 hm2 hd1
  by_cases hm : m ≤ 2
  · rw [if_pos hm] at hc
    omega
  · rw [if_neg hm] at hc
    omega

theorem convert_unixms_to_dateTime_since_epoch (ts : Nat) (out : ds3231m_t)
    (h : ts ≤ 4102444799999) :
    ValidSinceEpoch (convert_unixms_to_dateTime ts out) ∧
    dayNumber (convert_unixms_to_dateTime ts out).year (convert_unixms_to_dateTime ts out).month
      (convert_unixms_to_dateTime ts out).date = ts / 1000 / 60 / 60 / 24 ∧
    (convert_unixms_to_dateTime ts out).hour = ts / 1000 / 60 / 60 % 24 ∧
    (convert_unixms_to_dateTime ts out).minute = ts / 1000 / 60 % 60 ∧
    (convert_unixms_to_dateTime ts out).second = ts / 1000 % 60 := by
  obtain ⟨ds, hv, hd⟩ := exists_date_of_dayNumber (ts / 1000 / 60 / 60 / 24) (by omega)
  obtain ⟨hy1, hy2, hm1, hm2, hd1, hd2, -, -, -⟩ := hv
  have hdf := dateFromDays_dayNumber_since_epoch ds.year ds.month ds.date hy1 hy2 hm1 hm2 hd1 hd2
  rw [hd] at hdf
  rw [convert_unixms_to_dateTime_eq, hdf]
  refine ⟨⟨hy1, hy2, hm1, hm2, hd1, hd2, ?_, ?_, ?_⟩, hd, rfl, rfl, rfl⟩
  · show ts / 1000 / 60 / 60 % 24 ≤ 23
    omega
  · show ts / 1000 / 60 % 60 ≤ 59
    omega
  · show ts / 1000 % 60 ≤ 59
    omega

theorem convert_unix_dateTime_unix (ts : Nat) (out : ds3231m_t) (h : ts ≤ 4102444799999) :
    convert_dateTime_to_unixms (convert_unixms_to_dateTime ts out) = ts - ts % 1000 := by
  obtain ⟨hv, hd, hh, hmi, hs⟩ := convert_unixms_to_dateTime_since_epoch ts out h
  obtain ⟨hy1, hy2, hm1, hm2, hd1, hd2, h1, h2, h3⟩ := hv
  have h31 := daysInMonth_le (convert_unixms_to_dateTime ts out).year
    (convert_unixms_to_dateTime ts out).month
  rw [convert_dateTime_to_unixms_eq_since_epoch _ hy1 hy2 hm1 hm2 hd1 (by omega) h1 h2 h3,
    hd, hh, hmi, hs]
  omega

theorem convert_unixms_to_dateTime_valid (ts : Nat) (out : ds3231m_t)
    (h1 : 946684800000 ≤ ts) (h2 : ts ≤ 4102444799999) :
    ValidDateTime (convert_unixms_to_dateTime ts out) := by
  obtain ⟨hv, hd, -, -, -⟩ := convert_unixms_to_dateTime_since_epoch ts out h2
  obtain ⟨hy1, hy2, hm1, hm2, hd1, hd2, t1, t2, t3⟩ := hv
  have h31 := daysInMonth_le (convert_unixms_to_dateTime ts out).year
    (convert_unixms_to_dateTime ts out).month
  refine ⟨?_, hy2, hm1, hm2, hd1, hd2, t1, t2, t3⟩
  by_contra hlt
  have hb := dayNumber_before_2000 _ _ _ hy1 (by omega) hm1 hm2 hd1 (by omega)
  rw [hd] at hb
  omega

theorem validDateTime_since_epoch (ds : ds3231m_t) (h : ValidDateTime ds) : ValidSinceEpoch ds := by
  obtain ⟨hy1, rest⟩ := h
  exact ⟨by omega, rest⟩

theorem convert_of_valid (ds : ds3231m_t) (h : ValidSinceEpoch ds) :
    convert_dateTime_to_unixms ds =
      1000 * (86400 * dayNumber ds.year ds.month ds.date + 3600 * ds.hour + 60 * ds.minute
        + ds.second) := by
  obtain ⟨hy1, hy2, hm1, hm2, hd1, hd2, h1, h2, h3⟩ := h
  have h31 := daysInMonth_le ds.year ds.month
  exact convert_dateTime_to_unixms_eq_since_epoch ds hy1 hy2 hm1 hm2 hd1 (by omega) h1 h2 h3

theorem convert_nextDay (ds : ds3231m_t) (h : ValidSinceEpoch ds)
    (hlast : ¬ (ds.year = 2099 ∧ ds.month = 12 ∧ ds.date = 31)) :
    convert_dateTime_to_unixms (nextDay ds) = convert_dateTime_to_unixms ds + 86400000 := by
  obtain ⟨hv, hd⟩ := nextDay_dayNumber ds h hlast
  obtain ⟨t1, t2, t3⟩ := nextDay_time ds
  rw [convert_of_valid _ hv, convert_of_valid _ h, hd, t1, t2, t3]
  omega

theorem dayNumber_first_mono (y m n : Nat) (hy1 : 1970 ≤ y) (hy2 : y ≤ 2099)
    (hm1 : 1 ≤ m) (hmn : m ≤ n) (hn : n ≤ 12) :
    dayNumber y m 1 ≤ dayNumber y n 1 := by
  have ha := dayNumber_closed y m 1 hy1 hy2 hm1 (by omega) (by omega)
  have hb := dayNumber_closed y n 1 hy1 hy2 (by omega) hn (by omega)
  by_cases h1 : m ≤ 2
  · by_cases h2 : n ≤ 2
    · rw [if_pos h1] at ha
      rw [if_pos h2] at hb
      omega
    · rw [if_pos h1] at ha
      rw [if_neg h2] at hb
      omega
  · have h2 : ¬ n ≤ 2 := by omega
    rw [if_neg h1] at ha
    rw [if_neg h2] at hb
    omega

theorem dayNumber_date_add (y m d k : Nat) (hy1 : 1970 ≤ y) (hy2 : y ≤ 2099)
    (hm1 : 1 ≤ m) (hm2 : m ≤ 12) (hd1 : 1 ≤ d) :
    dayNumber y m (d + k) = dayNumber y m d + k := by
  have ha := dayNumber_closed y m d hy1 hy2 hm1 hm2 hd1
  have hb := dayNumber_closed y m (d + k) hy1 hy2 hm1 hm2 (by omega)
  by_cases hm : m ≤ 2
  · rw [if_pos hm] at ha hb
    omega
  · rw [if_neg hm] at ha hb
    omega

theorem dayNumber_year_bounds (y m d : Nat) (hy1 : 1970 ≤ y) (hy2 : y ≤ 2099)
    (hm1 : 1 ≤ m) (hm2 : m ≤ 12) (hd1 : 1 ≤ d) (hd2 : d ≤ 31) :
    365 * (y - 1) + (y - 1) / 4 + 399 ≤ dayNumber y m d + 719576 ∧
    dayNumber y m d + 719576 ≤ 365 * y + y / 4 + 398 := by
  have hc := dayNumber_closed y m d hy1 hy2 hm1 hm2 hd1
  by_cases hm : m ≤ 2
  · rw [if_pos hm] at hc
    constructor <;> omega
  · rw [if_neg hm] at hc
    constructor <;> omega

theorem dayNumber_lt_of_date_before (a b : ds3231m_t) (ha : ValidSinceEpoch a)
    (hb : ValidSinceEpoch b)
    (h : a.year < b.year ∨ (a.year = b.year ∧ (a.month < b.month ∨
      (a.month = b.month ∧ a.date < b.date)))) :
    dayNumber a.year a.month a.date < dayNumber b.year b.month b.date := by
  obtain ⟨ay1, ay2, am1, am2, ad1, ad2, -, -, -⟩ := ha
  obtain ⟨by1, by2, bm1, bm2, bd1, bd2, -, -, -⟩ := hb
  have ha31 := daysInMonth_le a.year a.month
  have hb31 := daysInMonth_le b.year b.month
  rcases h with hy | ⟨hy, hm | ⟨hm, hd⟩⟩
  · have h1 := dayNumber_year_bounds a.year a.month a.date ay1 ay2 am1 am2 ad1 (by omega)
    have h2 := dayNumber_year_bounds b.year b.month b.date by1 by2 bm1 bm2 bd1 (by omega)
    omega
  · rw [← hy] at bd2 ⊢
    have e1 : dayNumber a.year a.month (daysInMonth a.year a.month)
        = dayNumber a.year a.month a.date + (daysInMonth a.year a.month - a.date) := by
      have hk : a.date + (daysInMonth a.year a.month - a.date)
          = daysInMonth a.year a.month := by omega
      have hadd := dayNumber_date_add a.year a.month a.date
        (daysInMonth a.year a.month - a.date) ay1 ay2 am1 am2 ad1
      rw [hk] at hadd
      exact hadd
    have e2 := dayNumber_next_month a.year a.month ay1 ay2 am1 (by omega)
    have e3 := dayNumber_first_mono a.year (a.month + 1) b.month ay1 ay2 (by omega) (by omega) bm2
    have e4 : dayNumber a.year b.month b.date = dayNumber a.year b.month 1 + (b.date - 1) := by
      have hk : 1 + (b.date - 1) = b.date := by omega
      have hadd := dayNumber_date_add a.year b.month 1 (b.date - 1) ay1 ay2 bm1 bm2 (by omega)
      rw [hk] at hadd
      exact hadd
    omega
  · rw [← hy, ← hm]
    have e1 : dayNumber a.year a.month b.date
        = dayNumber a.year a.month a.date + (b.date - a.date) := by
      have hk : a.date + (b.date - a.date) = b.date := by omega
      have hadd := dayNumber_date_add a.year a.month a.date (b.date - a.date)
        ay1 ay2 am1 am2 ad1
      rw [hk] at hadd
      exact hadd
    omega

theorem convert_lt_of_before (a b : ds3231m_t) (ha : ValidSinceEpoch a)
    (hb : ValidSinceEpoch b) (h : Before a b) :
    convert_dateTime_to_unixms a < convert_dateTime_to_unixms b := by
  rw [convert_of_valid a ha, convert_of_valid b hb]
  have ta := ha.2.2.2.2.2.2
  have tb := hb.2.2.2.2.2.2
  unfold Before at h
  by_cases hdate : a.year < b.year ∨ (a.year = b.year ∧ (a.month < b.month ∨
      (a.month = b.month ∧ a.date < b.date)))
  · have hlt := dayNumber_lt_of_date_before a b ha hb hdate
    omega
  · have hy : a.year = b.year := by omega
    have hm : a.month = b.month := by omega
    have hd : a.date = b.date := by omega
    rw [hy, hm, hd]
    omega

/-! ## Timestamps of the chip's century -/

/-- C16: for every timestamp from 946684800000 (2000-01-01 00:00:00) through
4102444799999 (2099-12-31 23:59:59.999), `convert_unixms_to_dateTime` produces
year 2000..2099, month 1..12, date 1..31 and not beyond the days of that month
in that year, hour 0..23, minute 0..59 and second 0..59. -/
theorem convert_unixms_to_dateTime_in_range (ts : Nat) (out : ds3231m_t)
    (h1 : 946684800000 ≤ ts) (h2 : ts ≤ 4102444799999) :
    ValidDateTime (convert_unixms_to_dateTime ts out) ∧
    (convert_unixms_to_dateTime ts out).date ≤ 31 :=
  ⟨convert_unixms_to_dateTime_valid ts out h1 h2,
    Nat.le_trans (convert_unixms_to_dateTime_valid ts out h1 h2).2.2.2.2.2.1
      (daysInMonth_le _ _)⟩

theorem convert_unixms_to_dateTime_in_range_witness :
    ValidDateTime (convert_unixms_to_dateTime 1549948719000 zeroTime) ∧
    (convert_unixms_to_dateTime 1549948719000 zeroTime).date ≤ 31 :=
  convert_unixms_to_dateTime_in_range 1549948719000 zeroTime (by decide) (by decide)

/-- C19: for every timestamp from 0 through 4102444799999, converting to a
date-time and back gives the timestamp truncated to whole seconds,
`ts - ts % 1000`. -/
theorem convert_back_truncates_to_seconds (ts : Nat) (out : ds3231m_t)
    (h : ts ≤ 4102444799999) :
    convert_dateTime_to_unixms (convert_unixms_to_dateTime ts out) = ts - ts % 1000 :=
  convert_unix_dateTime_unix ts out h

theorem convert_back_truncates_to_seconds_witness :
    convert_dateTime_to_unixms (convert_unixms_to_dateTime 1549948719123 zeroTime)
      = 1549948719123 - 1549948719123 % 1000 :=
  convert_back_truncates_to_seconds 1549948719123 zeroTime (by decide)

/-- C20: for every valid date-time of 2000..2099 other than on 2099-12-31, the
next calendar day at the same time of day converts to exactly 86400000 more;
and the conversion is strictly increasing in chronological order on valid
date-times. -/
theorem convert_next_day_and_order (dt later : ds3231m_t) (h : ValidDateTime dt) :
    (¬ (dt.year = 2099 ∧ dt.month = 12 ∧ dt.date = 31) →
      convert_dateTime_to_unixms (nextDay dt) = convert_dateTime_to_unixms dt + 86400000) ∧
    (ValidDateTime later → Before dt later →
      convert_dateTime_to_unixms dt < convert_dateTime_to_unixms later) :=
  ⟨fun hlast => convert_nextDay dt (validDateTime_since_epoch dt h) hlast,
    fun hl hb => convert_lt_of_before dt later (validDateTime_since_epoch dt h)
      (validDateTime_since_epoch later hl) hb⟩

theorem convert_next_day_and_order_witness :
    convert_dateTime_to_unixms (nextDay sampleTime)
      = convert_dateTime_to_unixms sampleTime + 86400000 ∧
    convert_dateTime_to_unixms sampleTime < convert_dateTime_to_unixms sampleLater :=
  ⟨(convert_next_day_and_order sampleTime sampleLater (by decide)).1 (by decide),
    (convert_next_day_and_order sampleTime sampleLater (by decide)).2 (by decide)
      (by decide)⟩

end DS3231M
